import Mathlib

/-!
Verification development for the VNRVJIET admission-bot dialogue engine
(`app/api/chat.py`, `app/utils/validators.py`).

The endpoint `chat` is a per-session state machine over five module-level
dictionaries (`_session_contact_data`, `_session_cutoff_data`,
`_session_last_cutoff`, `_session_pending_intent`, `_session_history`) plus a
per-client rate bucket (`_rate_buckets`).  Each call touches only the entry of
the supplied session id / client ip, so the state is embedded per session
(`SessionState`) plus one bucket (`ServerState`).

External collaborators (the intent classifier `classify`, the database lookups
`check_eligibility` / `get_cutoff` / `list_branches`, the LLM call
`_generate_llm_response`, the RAG retriever and the Google-Sheets save) are
parameters of an `Env` record: the endpoint only pipes their results around.
Everything else — the pure text validators with their regular expressions,
input sanitisation, the three collection flows, the router, the reuse logic,
the rate limiter — is translated from the source.

Regular expressions of the source are represented by a small pattern type
`Pat` (literals, character classes, star, option, sequence, alternation) with
an executable backtracking matcher; `re.search` with the `\b` anchors that
wrap every pattern of the source is `searchPat` (all source patterns start and
end with a word character and are not nullable, so the word-boundary check
reduces to inspecting the neighbouring characters).  Python's `float`
timestamps are modelled as integers (only their ordering and differences against the 60-second window enter the logic).
-/

/-! ## Python string primitives -/

theorem dropWhile_len_le {α : Type} (p : α → Bool) :
    ∀ t : List α, (t.dropWhile p).length ≤ t.length
  | [] => Nat.le_refl _
  | a :: t => by
    simp only [List.dropWhile_cons]
    split
    · exact Nat.le_succ_of_le (dropWhile_len_le p t)
    · exact Nat.le_refl _

/-- Python `\s` / `str.strip()` whitespace (ASCII range, which is all that
survives `sanitise_input`'s handling in practice). -/
def pySpaceChar (c : Char) : Bool :=
  c == ' ' || c == '\t' || c == '\n' || c == '\r' || c == '\x0b' || c == '\x0c'

/-- Python `\w`: `[a-zA-Z0-9_]` (ASCII). -/
def isWordChar (c : Char) : Bool :=
  c.isAlphanum || c == '_'

def trimChars (cs : List Char) : List Char :=
  ((cs.dropWhile pySpaceChar).reverse.dropWhile pySpaceChar).reverse

/-- Python `str.strip()`. -/
def pyStrip (s : String) : String := ⟨trimChars s.data⟩

/-- Python `str.lower()` (ASCII). -/
def pyLower (s : String) : String := ⟨s.data.map Char.toLower⟩

/-- Python `str.upper()` (ASCII). -/
def pyUpper (s : String) : String := ⟨s.data.map Char.toUpper⟩

/-- Does `hay` start with `needle` (exact characters)? -/
def leadsWith : List Char → List Char → Bool
  | [], _ => true
  | _ :: _, [] => false
  | a :: as, b :: bs => a == b && leadsWith as bs

/-- Python's substring test `needle in hay`. -/
def hasSub (needle : List Char) : List Char → Bool
  | [] => leadsWith needle []
  | c :: t => leadsWith needle (c :: t) || hasSub needle t

/-! ## A small pattern language for the source's regular expressions -/

inductive Pat where
  | eps : Pat
  | lit : List Char → Pat          -- literal, matched case-insensitively
  | cls : List Char → Pat          -- one character from the set
  | starCls : List Char → Pat      -- zero or more characters from the set
  | opt : Pat → Pat                -- `p?`
  | seq : Pat → Pat → Pat
  | alt : Pat → Pat → Pat
deriving Repr

def pseq (ps : List Pat) : Pat := ps.foldr Pat.seq Pat.eps

def palt : List Pat → Pat
  | [] => Pat.lit ['\x00']         -- unmatchable; never used on []
  | [p] => p
  | p :: ps => Pat.alt p (palt ps)

def plit (s : String) : Pat := Pat.lit s.data

/-- Strip a case-insensitive literal (stored lowercase) off the front. -/
def dropLit : List Char → List Char → Option (List Char)
  | [], t => some t
  | _ :: _, [] => none
  | a :: as, b :: bs => if b.toLower == a then dropLit as bs else none

/-- All the ways `starCls cs` can consume a prefix: every suffix obtained by
dropping a run of class characters. -/
def starDrops (cs : List Char) : List Char → List (List Char)
  | [] => [[]]
  | c :: t => (c :: t) :: (if cs.contains c then starDrops cs t else [])

/-- Backtracking matcher: the list of possible remainders after matching `p`
at the front of the text. -/
def matchPat : Pat → List Char → List (List Char)
  | .eps, t => [t]
  | .lit s, t =>
      match dropLit s t with
      | some r => [r]
      | none => []
  | .cls cs, t =>
      match t with
      | [] => []
      | c :: r => if cs.contains c.toLower then [r] else []
  | .starCls cs, t => starDrops cs t
  | .opt p, t => t :: matchPat p t
  | .seq p q, t => (matchPat p t).flatMap (fun r => matchPat q r)
  | .alt p q, t => matchPat p t ++ matchPat q t

/-- A match of `p` starts here and ends at a word boundary (the remainder does
not begin with a word character).  Sound for the source's patterns because
they all end in a word character and are not nullable. -/
def matchHereB (p : Pat) (t : List Char) : Bool :=
  (matchPat p t).any fun r =>
    match r with
    | [] => true
    | c :: _ => !isWordChar c

/-- `re.search` of a pattern wrapped in `\b...\b`: some position whose
preceding character is not a word character starts a boundary-terminated
match.  `prevW` records whether the previous character was a word character
(false at the start of the text). -/
def searchBAux (p : Pat) : Bool → List Char → Bool
  | prevW, [] => !prevW && matchHereB p []
  | prevW, c :: t => (!prevW && matchHereB p (c :: t)) || searchBAux p (isWordChar c) t

def searchPat (p : Pat) (t : List Char) : Bool := searchBAux p false t

/-! ## Character classes used by the source patterns -/

def wsChars : List Char := [' ', '\t', '\n', '\r', '\x0b', '\x0c']
def wsHyph : List Char := wsChars ++ ['-']          -- `[\s\-]`
def wsHyphAmp : List Char := wsHyph ++ ['&']        -- `[\s\-&]`

def ws1 : Pat := Pat.seq (Pat.cls wsChars) (Pat.starCls wsChars)  -- `\s+`
def ws0 : Pat := Pat.starCls wsChars                              -- `\s*`

/-! ## `app/utils/validators.py` -/

def digitVal (c : Char) : Nat := c.toNat - 48

/-- Fold decimal digits onto an accumulator. -/
def parseAcc (a : Nat) (cs : List Char) : Nat :=
  cs.foldl (fun x c => 10 * x + digitVal c) a

/-- After the digit group of `(\d+)\s*k\b`: skip `\s*`, require `k`/`K`
followed by a word boundary. -/
def kAfter (acc : Nat) : List Char → Option Nat
  | [] => none
  | c :: t =>
      if pySpaceChar c then kAfter acc t
      else if (c == 'k' || c == 'K') &&
              (match t with | [] => true | d :: _ => !isWordChar d) then
        some acc
      else none

/-- Leftmost match of `(\d+)\s*k\b` (`re.search`, `re.I`), read as a
left-to-right automaton: `st` holds the value of the digit run currently
being read; at the first character after a run the `\s*k\b` tail is checked
by `kAfter`, and on failure scanning continues.  A digit run ending at the
end of the text has no `k` after it, and a shorter digit prefix can never
match where its full run fails (the next character would be another digit,
not whitespace or `k`), so no other backtracking arises. -/
def kSearchAux : Option Nat → List Char → Option Nat
  | _, [] => none
  | st, c :: t =>
      if c.isDigit then
        kSearchAux (some (match st with
          | some a => 10 * a + digitVal c
          | none => digitVal c)) t
      else
        match st with
        | some a =>
            match kAfter a (c :: t) with
            | some v => some v
            | none => kSearchAux none t
        | none => kSearchAux none t

def kSearch (cs : List Char) : Option Nat := kSearchAux none cs

/-- Leftmost match of `\b(\d+)\b`: the first maximal digit run whose
neighbours on both sides are not word characters, as an automaton.  `prevW`
tells whether the preceding character was a word character; while inside a
run, `st` holds the accumulated value and whether the run started at a word
boundary. -/
def plainSearchAux : Bool → Option (Nat × Bool) → List Char → Option Nat
  | _, none, [] => none
  | _, some (a, ok), [] => if ok then some a else none
  | prevW, st, c :: t =>
      if c.isDigit then
        match st with
        | some (a, ok) => plainSearchAux prevW (some (10 * a + digitVal c, ok)) t
        | none => plainSearchAux true (some (digitVal c, !prevW)) t
      else
        match st with
        | some (a, ok) =>
            if ok && !isWordChar c then some a
            else plainSearchAux (isWordChar c) none t
        | none => plainSearchAux (isWordChar c) none t

def plainSearch (cs : List Char) : Option Nat := plainSearchAux false none cs

/-- `extract_rank` (validators.py lines 25–47): try `(\d+)\s*k\b` (value
×1000), else `\b(\d+)\b`; in both cases the value is returned only when it
lies in `[1, 200000]`, otherwise `None` — with no fallthrough from a
rejected `k` match to the plain pattern. -/
def extract_rank (cs : List Char) : Option Nat :=
  match kSearch cs with
  | some n =>
      let val := n * 1000
      if 1 ≤ val && val ≤ 200000 then some val else none
  | none =>
      match plainSearch cs with
      | some val => if 1 ≤ val && val ≤ 200000 then some val else none
      | none => none

/-! ### `_BRANCH_PATTERNS` (validators.py lines 52–96), in source order -/

def pCSECSM : Pat := palt [
  pseq [plit "cse", Pat.starCls wsHyph,
        palt [plit "ai", pseq [plit "artificial", ws1, plit "intelligence"]],
        Pat.starCls wsHyphAmp,
        palt [plit "ml", pseq [plit "machine", ws1, plit "learning"]]],
  pseq [plit "ai", Pat.starCls wsHyphAmp, plit "ml"],
  plit "aiml",
  pseq [plit "artificial", ws1, plit "intelligence", ws1,
        Pat.opt (pseq [plit "and", ws1]), plit "machine", ws1, plit "learning"],
  pseq [plit "cse", Pat.starCls wsHyph, plit "csm"]]

def pAID : Pat := palt [
  pseq [plit "cse", Pat.starCls wsHyph,
        palt [plit "ai", pseq [plit "artificial", ws1, plit "intelligence"]],
        Pat.starCls wsHyphAmp,
        palt [plit "ds", pseq [plit "data", ws1, plit "science"]]],
  pseq [plit "ai", Pat.starCls wsHyphAmp, plit "ds"],
  pseq [plit "artificial", ws1, plit "intelligence", ws1,
        Pat.opt (pseq [plit "and", ws1]), plit "data", ws1, plit "science"]]

def pAIDStandalone : Pat := pseq [plit "aid", Pat.opt (plit "s")]

def pCSECSD : Pat := palt [
  pseq [plit "cse", Pat.starCls wsHyph,
        palt [pseq [plit "data", ws1, plit "science"], plit "ds"]],
  plit "csd",
  pseq [plit "cse", Pat.starCls wsHyph, plit "csd"]]

def pDataScience : Pat := pseq [plit "data", ws1, plit "science"]

def pCSECSC : Pat := palt [
  pseq [plit "cse", Pat.starCls wsHyph,
        palt [pseq [plit "cyber", ws1, plit "security"], plit "cys"]],
  pseq [plit "cyber", ws1, plit "security"],
  plit "cybersecurity",
  plit "csc",
  pseq [plit "cse", Pat.starCls wsHyph, plit "csc"]]

def pCSECSO : Pat := palt [
  pseq [plit "cse", Pat.starCls wsHyph,
        palt [plit "iot", pseq [plit "internet", ws1, plit "of", ws1, plit "things"]]],
  pseq [plit "internet", ws1, plit "of", ws1, plit "things"],
  plit "cso",
  pseq [plit "cse", Pat.starCls wsHyph, plit "cso"]]

def pIot : Pat := plit "iot"

def pCSB : Pat := palt [
  pseq [plit "cse", Pat.starCls wsHyph,
        palt [pseq [plit "business", ws1, plit "system", Pat.opt (plit "s")], plit "bs"]],
  pseq [plit "computer", ws1, plit "science", Pat.starCls wsHyphAmp,
        plit "business", ws1, plit "system", Pat.opt (plit "s")],
  pseq [plit "cs", ws1, plit "business"],
  plit "csb"]

def pCSM : Pat := plit "csm"

def pCSE : Pat := palt [
  plit "cse",
  pseq [plit "computer", ws1, plit "science",
        Pat.opt (pseq [ws1, palt [plit "and", plit "&"], ws1, plit "engineering"])],
  pseq [plit "computer", ws1, plit "engineering"]]

def pCS : Pat := plit "cs"

def pEEE : Pat := palt [
  plit "eee",
  pseq [plit "electrical", ws1, plit "and", ws1, plit "electronics",
        Pat.opt (pseq [ws1, plit "engineering"])],
  pseq [plit "electrical", ws1, plit "engineering"]]

def pElectrical : Pat := plit "electrical"
def pEE : Pat := plit "ee"

def pECE : Pat := palt [
  plit "ece",
  pseq [plit "electronics", ws1, palt [plit "and", plit "&"], ws1, plit "communication",
        Pat.opt (pseq [ws1, plit "engineering"])],
  pseq [plit "electronics", ws1, plit "communication"]]

def pElectronics : Pat := plit "electronics"
def pEC : Pat := plit "ec"

def pIT : Pat := palt [pseq [plit "information", ws1, plit "technology"], plit "it"]

def pME : Pat := palt [
  pseq [plit "mechanical", Pat.opt (pseq [ws1, plit "engineering"])],
  plit "mech"]
def pMEshort : Pat := plit "me"

def pCIV : Pat := palt [
  pseq [plit "civil", Pat.opt (pseq [ws1, plit "engineering"])],
  plit "civ"]
def pCE : Pat := plit "ce"

def pRAI : Pat := palt [
  pseq [plit "robotics",
        Pat.opt (pseq [ws1, palt [plit "and", plit "&"], ws1,
                       palt [plit "ai", pseq [plit "artificial", ws1, plit "intelligence"]]])],
  plit "rai"]

def pVLSI : Pat := plit "vlsi"

def pAUT : Pat := palt [
  pseq [plit "automobile", Pat.opt (pseq [ws1, plit "engineering"])],
  plit "aut"]

def pBio : Pat := palt [plit "biotechnology", plit "biotech", plit "bio"]

def pEIE : Pat := palt [
  pseq [plit "electronics", ws1, palt [plit "and", plit "&"], ws1, plit "instrumentation",
        Pat.opt (pseq [ws1, plit "engineering"])],
  plit "instrumentation",
  plit "eie"]

/-- The ordered pattern → branch-code table (insertion order of the source
dict, which Python preserves). -/
def branchPatterns : List (Pat × String) := [
  (pCSECSM, "CSE-CSM"), (pAID, "AID"), (pAIDStandalone, "AID"),
  (pCSECSD, "CSE-CSD"), (pDataScience, "CSE-CSD"), (pCSECSC, "CSE-CSC"),
  (pCSECSO, "CSE-CSO"), (pIot, "CSE-CSO"), (pCSB, "CSB"), (pCSM, "CSE-CSM"),
  (pCSE, "CSE"), (pCS, "CSE"), (pEEE, "EEE"), (pElectrical, "EEE"),
  (pEE, "EEE"), (pECE, "ECE"), (pElectronics, "ECE"), (pEC, "ECE"),
  (pIT, "IT"), (pME, "ME"), (pMEshort, "ME"), (pCIV, "CIV"), (pCE, "CIV"),
  (pRAI, "RAI"), (pVLSI, "VLSI"), (pAUT, "AUT"), (pBio, "BIO"), (pEIE, "EIE")]

/-- The `found` loop of `extract_branches`: append each matching branch code
once, in table order. -/
def branchFound : List (Pat × String) → List Char → List String → List String
  | [], _, found => found
  | (p, b) :: rest, t, found =>
      branchFound rest t
        (if searchPat p t && !(found.contains b) then found ++ [b] else found)

/-- `\b(?:all|every|each)\b` applied to the stripped, lowered text. -/
def allKeyword (text : String) : Bool :=
  searchPat (palt [plit "all", plit "every", plit "each"]) (pyLower (pyStrip text)).data

/-- `extract_branches` (validators.py lines 107–127). -/
def extract_branches (text : String) : List String :=
  if allKeyword text then ["ALL"]
  else branchFound branchPatterns text.data []

/-! ### `extract_category` (validators.py lines 130–149) -/

def catPatterns : List (Pat × String) := [
  (palt [plit "oc", pseq [plit "open", ws0, plit "category"],
         pseq [plit "general", ws0, plit "category"], plit "general"], "OC"),
  (palt [plit "obc", pseq [plit "bc", Pat.opt (Pat.cls wsHyph), plit "d"]], "BC-D"),
  (pseq [plit "bc", Pat.opt (Pat.cls wsHyph), plit "a"], "BC-A"),
  (pseq [plit "bc", Pat.opt (Pat.cls wsHyph), plit "b"], "BC-B"),
  (pseq [plit "bc", Pat.opt (Pat.cls wsHyph), plit "c"], "BC-C"),
  (pseq [plit "bc", Pat.opt (Pat.cls wsHyph), plit "e"], "BC-E"),
  (palt [pseq [plit "sc", Pat.opt (Pat.cls wsHyph), plit "iii"],
         pseq [plit "sc", Pat.opt (Pat.cls wsHyph), plit "3"]], "SC-III"),
  (palt [pseq [plit "sc", Pat.opt (Pat.cls wsHyph), plit "ii"],
         pseq [plit "sc", Pat.opt (Pat.cls wsHyph), plit "2"]], "SC-II"),
  (palt [pseq [plit "sc", Pat.opt (Pat.cls wsHyph), plit "i"],
         pseq [plit "sc", Pat.opt (Pat.cls wsHyph), plit "1"]], "SC-I"),
  (plit "sc", "SC"),
  (plit "st", "ST"),
  (plit "ews", "EWS")]

def firstPatMatch : List (Pat × String) → List Char → Option String
  | [], _ => none
  | (p, v) :: rest, t => if searchPat p t then some v else firstPatMatch rest t

def extract_category (text : String) : Option String :=
  firstPatMatch catPatterns text.data

/-- `extract_gender` (validators.py lines 152–159): girls patterns first. -/
def extract_gender (text : String) : Option String :=
  let t := (pyLower text).data
  if searchPat (palt [plit "girl", plit "girls", plit "female",
                      plit "women", plit "woman", plit "daughter"]) t then
    some "Girls"
  else if searchPat (palt [plit "boy", plit "boys", plit "male",
                           plit "men", plit "man", plit "son"]) t then
    some "Boys"
  else none

/-! ### `sanitise_input` (validators.py lines 11–22) -/

/-- `html.escape(text, quote=True)`, character by character. -/
def htmlEscapeChar (c : Char) : List Char :=
  if c == '&' then "&amp;".data
  else if c == '<' then "&lt;".data
  else if c == '>' then "&gt;".data
  else if c == '"' then "&quot;".data
  else if c == '\x27' then "&#x27;".data
  else [c]

/-- `re.sub(r"\s+", " ", ·)`: collapse every whitespace run to one space
(`inRun` records whether the previous character was whitespace). -/
def collapseWsAux : Bool → List Char → List Char
  | _, [] => []
  | inRun, c :: t =>
      if pySpaceChar c then
        if inRun then collapseWsAux true t else ' ' :: collapseWsAux true t
      else c :: collapseWsAux false t

def collapseWs (cs : List Char) : List Char := collapseWsAux false cs

/-- `sanitise_input`: strip, escape HTML, collapse whitespace, cap at 1000
characters. -/
def sanitise_input (text : String) : String :=
  ⟨(collapseWs ((trimChars text.data).flatMap htmlEscapeChar)).take 1000⟩

/-! ### decimal rendering (for the claims about `extract_rank`) -/

def digitChar (d : Nat) : Char := Char.ofNat (48 + d)

/-- The decimal text of a natural number (most significant digit first). -/
def natChars (n : Nat) : List Char :=
  if n = 0 then ['0'] else (Nat.digits 10 n).reverse.map digitChar

/-- The decimal text of an integer (`str(r)` in Python). -/
def intChars (i : Int) : List Char :=
  if i < 0 then '-' :: natChars i.natAbs else natChars i.toNat

/-! ## Data model (`app/api/chat.py` module state, per session) -/

/-- Intents of `app/classifier/intent_classifier.py` (`IntentType`). -/
inductive Intent where
  | informational | cutoff | eligibility | mixed | outOfScope | greeting
deriving DecidableEq, Repr

/-- `IntentType.value`. -/
def Intent.val : Intent → String
  | .informational => "informational"
  | .cutoff => "cutoff"
  | .eligibility => "eligibility"
  | .mixed => "mixed"
  | .outOfScope => "out_of_scope"
  | .greeting => "greeting"

/-- One entry of `_session_contact_data[sid]`.  A `none` field is a key that
is absent from the dict (the validated setters never store `None` for the
five required fields); `message` distinguishes key-absent (`none`) from
key-present-but-`None` (`some none`). -/
structure ContactData where
  waitingFor : Option String := none      -- "_waiting_for"
  name : Option String := none
  email : Option String := none
  phone : Option String := none
  programme : Option String := none
  queryType : Option String := none       -- "query_type"
  message : Option (Option String) := none
deriving DecidableEq, Repr

/-- `_session_last_cutoff[sid]`: `{branch, category, gender}`. -/
structure LastCutoff where
  branch : List String
  category : String
  gender : String
deriving DecidableEq, Repr

/-- Values `_waiting_for` takes in the cutoff/eligibility collection dict. -/
inductive CKey where
  | branch | category | gender | rank | confirmReuse
deriving DecidableEq, Repr

/-- `_flow`. -/
inductive CFlow where
  | cutoff | eligibility
deriving DecidableEq, Repr

/-- One entry of `_session_cutoff_data[sid]`.  The stored `branch` is always a
list (every setter stores a list), `rank` and `extractedRank` are always ≥ 1
(they come from `extract_rank`). -/
structure CutoffData where
  flow : CFlow := .cutoff                  -- `collected.get("_flow", "cutoff")`
  waitingFor : Option CKey := none        -- "_waiting_for"
  branch : Option (List String) := none
  category : Option String := none
  gender : Option String := none
  rank : Option Nat := none
  reuseData : Option LastCutoff := none   -- "_reuse_data"
  extractedRank : Option Nat := none      -- "_extracted_rank"
deriving DecidableEq, Repr

/-- A history entry (`{"role": ..., "content": ...}`). -/
structure HMsg where
  role : String
  content : String
deriving DecidableEq, Repr

/-- The state the endpoint keeps for one session id across its module-level
dictionaries.  `none` means the session id is not a key of that dict. -/
structure SessionState where
  contact : Option ContactData := none     -- `_session_contact_data`
  cutoff : Option CutoffData := none       -- `_session_cutoff_data`
  lastCutoff : Option LastCutoff := none   -- `_session_last_cutoff`
  pendingIntent : Option String := none    -- `_session_pending_intent`
  history : List HMsg := []                -- `_session_history` (defaultdict)
deriving DecidableEq, Repr

/-- Session state plus one client's rate bucket (`_rate_buckets[ip]`). -/
structure ServerState where
  bucket : List ℤ := []
  sess : SessionState := {}
deriving DecidableEq, Repr

/-- The external collaborators and configuration, as the endpoint sees them:
`settings.RATE_LIMIT_PER_MINUTE` (default 30), `classify(...)` (keyword rules
plus an LLM fallback), `list_branches()` / `get_cutoff(...)` /
`check_eligibility(...)` (Firestore), `retrieve(...)` (vector store),
`_generate_llm_response(user_msg, context, cutoff_info, history)` (OpenAI)
and `save_contact_to_sheets(...)` (Google Sheets). -/
structure Env where
  rateLimit : Nat := 30
  classify : String → Intent := fun _ => .informational
  listBranches : List String := []
  getCutoff : String → String → String → String := fun _ _ _ => ""
  checkEligibility : Nat → String → String → String → String := fun _ _ _ _ => ""
  ragContext : String → String := fun _ => ""
  ragSources : String → List String := fun _ => []
  llm : String → String → String → List HMsg → String := fun _ _ _ _ => ""
  sheetsOk : Bool := true
  sheetsRef : String := ""

/-- The fields of a `ChatResponse`. -/
structure ChatReply where
  reply : String
  intent : String
  sources : List String := []
deriving DecidableEq, Repr

/-- Outcome of one call: HTTP 429, HTTP 400, or a `ChatResponse`. -/
inductive Outcome where
  | rateLimited
  | emptyMessage
  | ok : ChatReply → Outcome
deriving DecidableEq, Repr

/-! ## Rate limiter (`_check_rate_limit`, chat.py lines 138–149) -/

/-- Purge entries older than the 60-second window, then either reject
(leaving the purged bucket, without recording `now`) or admit (appending
`now`).  Returns `(admitted, new bucket)`. -/
def check_rate_limit (limit : Nat) (now : ℤ) (bucket : List ℤ) : Bool × List ℤ :=
  let purged := bucket.filter (fun t => now - t < 60)
  if limit ≤ purged.length then (false, purged)
  else (true, purged ++ [now])

/-! ## Reply construction helpers (chat.py) -/

/-- `_build_multi_branch_reply` (chat.py lines 152–177): one lookup message
per branch, a single message verbatim, several as a numbered list. -/
def build_multi_branch_reply (env : Env) (branches : List String)
    (category gender : String) (rank : Option Nat) : String :=
  let parts := branches.map fun b =>
    match rank with
    | some r => env.checkEligibility r b category gender
    | none => env.getCutoff b category gender
  if parts.length == 1 then parts.headD ""
  else
    String.intercalate "\n\n"
      (parts.enum.map fun p => "**" ++ toString (p.1 + 1) ++ ".** " ++ p.2)

/-- Append the user/assistant pair to the history (the flow paths of the
endpoint never trim). -/
def pushHist (s : SessionState) (u a : String) : SessionState :=
  { s with history := s.history ++ [⟨"user", u⟩, ⟨"assistant", a⟩] }

/-- `MAX_HISTORY` (chat.py line 96). -/
def MAX_HISTORY : Nat := 10

/-- The final-path trim (chat.py lines 809–811): keep the last
`MAX_HISTORY * 2` entries when strictly above that bound. -/
def trimHist (h : List HMsg) : List HMsg :=
  if MAX_HISTORY * 2 < h.length then h.drop (h.length - MAX_HISTORY * 2) else h

/-! ## Contact flow (chat.py lines 308–470) -/

/-- `_CONTACT_QUESTIONS` field order (the `message` stage is separate). -/
def contactFields : List String := ["name", "email", "phone", "programme", "query_type"]

def contactGet (c : ContactData) : String → Option String
  | "name" => c.name
  | "email" => c.email
  | "phone" => c.phone
  | "programme" => c.programme
  | "query_type" => c.queryType
  | _ => none

def contactSetWaiting (c : ContactData) (f : String) : ContactData :=
  { c with waitingFor := some f }

/-- The prompt texts of `_CONTACT_QUESTIONS` (the email prompt is the only
one `format`ted, with `collected.get("name", "there")`). -/
def contactQuestion (c : ContactData) : String → String
  | "name" => "I\x27d be happy to connect you with our admission team! 😊\n\nMay I have your **full name**?"
  | "email" => "Thank you, " ++ (c.name.getD "there") ++ "! 👋\n\nWhat\x27s your **email address**?"
  | "phone" => "Great! What\x27s your **phone number**? 📞"
  | "programme" => "What programme are you interested in?\n\n1️⃣ **B.Tech** (Bachelor of Technology)\n2️⃣ **M.Tech** (Master of Technology)\n3️⃣ **MCA** (Master of Computer Applications)\n\nReply with the number or name."
  | "query_type" => "Thank you! What is this regarding?\n\n1️⃣ Report fraud / unauthorized agent\n2️⃣ General admission inquiry\n3️⃣ Not satisfied with chatbot response\n4️⃣ Other\n\nReply with the number or description."
  | _ => ""

/-- `^[a-zA-Z0-9._%+-]+@[a-zA-Z0-9.-]+\.[a-zA-Z]{2,}$` character classes. -/
def emailLocalChar (c : Char) : Bool :=
  c.isAlphanum || c == '.' || c == '_' || c == '%' || c == '+' || c == '-'

def emailDomChar (c : Char) : Bool :=
  c.isAlphanum || c == '.' || c == '-'

/-- `[a-zA-Z]{2,}$`: entirely ASCII letters, at least two. -/
def tailAlpha2 (s : List Char) : Bool :=
  2 ≤ s.length && s.all (fun c => c.isAlpha)

/-- Does `d` split as `P "." S` with `P` a nonempty `[a-zA-Z0-9.-]+` chunk
and `S` all-alpha of length ≥ 2?  `pn` records whether the chunk before the
candidate dot is nonempty so far. -/
def emailDomSplit : Bool → List Char → Bool
  | _, [] => false
  | pn, c :: rest =>
      (c == '.' && pn && tailAlpha2 rest) || (emailDomChar c && emailDomSplit true rest)

/-- `re.match` of the email pattern against the whole (sanitised, stripped)
input: local part up to the first `@`, then the domain split. -/
def emailOk (cs : List Char) : Bool :=
  let l := cs.takeWhile (fun c => c != '@')
  match cs.drop l.length with
  | '@' :: d => !l.isEmpty && l.all emailLocalChar && emailDomSplit false d
  | _ => false

/-- `re.search(r"\b(\d{10})\b", ·)`: the first maximal digit run of length
exactly 10, as a string — again as an automaton.  While inside a run, `st`
holds the run's characters (reversed) and whether it started at a word
boundary. -/
def phoneSearchAux : Bool → Option (List Char × Bool) → List Char → Option String
  | _, none, [] => none
  | _, some (run, ok), [] =>
      if ok && run.length == 10 then some ⟨run.reverse⟩ else none
  | prevW, st, c :: t =>
      if c.isDigit then
        match st with
        | some (run, ok) => phoneSearchAux prevW (some (c :: run, ok)) t
        | none => phoneSearchAux true (some ([c], !prevW)) t
      else
        match st with
        | some (run, ok) =>
            if ok && run.length == 10 && !isWordChar c then some ⟨run.reverse⟩
            else phoneSearchAux (isWordChar c) none t
        | none => phoneSearchAux (isWordChar c) none t

def phoneSearch (msg : String) : Option String := phoneSearchAux false none msg.data

/-- Programme menu parsing (chat.py lines 344–353): substring checks on the
lowered, stripped message, in source order. -/
def programmeParse (msg : String) : Option String :=
  let ml := (pyStrip (pyLower msg)).data
  if hasSub "1".data ml || hasSub "b.tech".data ml || hasSub "btech".data ml ||
     hasSub "bachelor".data ml then some "B.Tech"
  else if hasSub "2".data ml || hasSub "m.tech".data ml || hasSub "mtech".data ml ||
     hasSub "master".data ml then some "M.Tech"
  else if hasSub "3".data ml || hasSub "mca".data ml then some "MCA"
  else none

/-- Query-type menu parsing (chat.py lines 362–373). -/
def queryTypeParse (msg : String) : Option String :=
  let ml := (pyStrip (pyLower msg)).data
  if hasSub "1".data ml || hasSub "fraud".data ml || hasSub "agent".data ml ||
     hasSub "scam".data ml then some "fraud_report"
  else if hasSub "2".data ml || hasSub "general".data ml || hasSub "inquiry".data ml ||
     hasSub "admission".data ml then some "general_inquiry"
  else if hasSub "3".data ml || hasSub "not satisfied".data ml ||
     hasSub "dissatisfied".data ml || hasSub "chatbot".data ml then some "dissatisfied"
  else if hasSub "4".data ml || hasSub "other".data ml then some "other"
  else none

/-- Result of the per-stage extraction/validation (chat.py lines 313–387):
either a re-prompt for the same field with the collected dict untouched, or
the updated dict. -/
inductive ContactExtract where
  | reprompt : String → ContactExtract
  | proceed : ContactData → ContactExtract
deriving Repr

def contactExtract (msg : String) (c : ContactData) : ContactExtract :=
  if c.waitingFor == some "name" then
    let name := pyStrip msg
    if name.data.length < 2 then
      .reprompt "Please provide your **full name** (at least 2 characters)."
    else .proceed { c with name := some name }
  else if c.waitingFor == some "email" then
    let email := pyStrip msg
    if !emailOk email.data then
      .reprompt "That doesn\x27t look like a valid email address. Please enter your **email** (e.g., student@example.com)."
    else .proceed { c with email := some email }
  else if c.waitingFor == some "phone" then
    match phoneSearch msg with
    | none => .reprompt "Please provide a valid **10-digit phone number** (e.g., 9876543210)."
    | some p => .proceed { c with phone := some p }
  else if c.waitingFor == some "programme" then
    match programmeParse msg with
    | none => .reprompt "Please choose a programme:\n\n1️⃣ B.Tech\n2️⃣ M.Tech\n3️⃣ MCA\n\nReply with the number (1, 2, or 3)."
    | some p => .proceed { c with programme := some p }
  else if c.waitingFor == some "query_type" then
    match queryTypeParse msg with
    | none => .reprompt "Please choose an option:\n\n1️⃣ Report fraud\n2️⃣ General inquiry\n3️⃣ Not satisfied with chatbot\n4️⃣ Other\n\nReply with the number (1-4)."
    | some q => .proceed { c with queryType := some q }
  else if c.waitingFor == some "message" then
    let m : Option String := if 0 < (pyStrip msg).data.length then some (pyStrip msg) else none
    .proceed { c with message := some m }
  else .proceed c

/-- The completion reply (chat.py lines 414–457): saved to sheets or the
apology, then the entry is deleted. -/
def contactFinish (env : Env) (msg : String) (c : ContactData) (s : SessionState) :
    SessionState × ChatReply :=
  -- `if collected.get("_waiting_for") == "message" and user_msg.lower().strip() == "skip"`
  let c := if c.waitingFor == some "message" && pyStrip (pyLower msg) == "skip" then
      { c with message := some none } else c
  let reply :=
    if env.sheetsOk then
      let phoneNote :=
        if c.queryType != some "fraud_report" && c.queryType != some "general_inquiry" then
          "\n\n🔒 **Note:** Your phone number is kept private and will not be shared with the admission team for this request type."
        else ""
      "✅ **Request Submitted Successfully**\n\nThank you, **" ++ (c.name.getD "") ++
      "**! Our admission team has received your request.\n\n**Contact Details:**\n📧 " ++
      (c.email.getD "") ++ "\n📞 " ++ (c.phone.getD "") ++ "\n🎓 Programme: " ++
      (c.programme.getD "") ++
      "\n\n**What\x27s next:**\nOur team will reach out to you within **24 hours**.\n\n**Reference ID:** `" ++
      env.sheetsRef ++ "`" ++ phoneNote
    else
      "⚠️ There was an issue submitting your request. Please contact our admission team directly:\n\n📧 admissions@vnrvjiet.ac.in\n📞 +91-40-2304 2758"
  ({ s with contact := none,
            history := s.history ++ [⟨"user", msg⟩, ⟨"assistant", reply⟩] },
   ⟨reply, "contact_request", []⟩)

/-- One turn while the session is in contact-collection mode
(chat.py lines 308–470). -/
def contactMode (env : Env) (msg : String) (c : ContactData) (s : SessionState) :
    SessionState × ChatReply :=
  match contactExtract msg c with
  | .reprompt ask => (pushHist s msg ask, ⟨ask, "contact_request", []⟩)
  | .proceed c' =>
      match contactFields.find? (fun f => (contactGet c' f).isNone) with
      | some f =>
          let c'' := contactSetWaiting c' f
          let ask := contactQuestion c'' f
          ({ s with contact := some c'', history := s.history ++ [⟨"user", msg⟩, ⟨"assistant", ask⟩] },
           ⟨ask, "contact_request", []⟩)
      | none =>
          if c'.message.isNone then
            let c'' := contactSetWaiting c' "message"
            let ask := "Almost done! Would you like to add any **additional message** or details?\n\n(Or reply **skip** to submit now)"
            ({ s with contact := some c'', history := s.history ++ [⟨"user", msg⟩, ⟨"assistant", ask⟩] },
             ⟨ask, "contact_request", []⟩)
          else contactFinish env msg c' s

/-! ## Cutoff / eligibility flow (chat.py lines 472–643) -/

/-- `_CUTOFF_QUESTIONS` / `_ELIGIBILITY_QUESTIONS` field order. -/
def cutFields : CFlow → List CKey
  | .cutoff => [.branch, .category, .gender]
  | .eligibility => [.branch, .category, .gender, .rank]

/-- `field not in collected or collected[field] is None`. -/
def cutMissingB (c : CutoffData) : CKey → Bool
  | .branch => c.branch.isNone
  | .category => c.category.isNone
  | .gender => c.gender.isNone
  | .rank => c.rank.isNone
  | .confirmReuse => false

/-- The question texts, with the branch template already `format`ted against
`list_branches()`. -/
def cutQuestion (env : Env) : CKey → String
  | .branch => "Which **branch(es)** are you interested in? You can pick one, multiple (e.g. CSE, ECE, IT), or say **all**.\n\n" ++ String.intercalate ", " env.listBranches
  | .category => "What is your **category / caste**?\n\n(e.g., OC, BC-A, BC-B, BC-C, BC-D, SC, ST, EWS)"
  | .gender => "Are you a **Boy** or a **Girl**?"
  | .rank => "What is your **EAPCET rank**?"
  | .confirmReuse => ""

/-- The acknowledgement vocabulary of the reuse confirmation
(chat.py line 483). -/
def affirmative (resp : String) : Bool :=
  resp == "yes" || resp == "y" || resp == "yeah" || resp == "yep" ||
  resp == "sure" || resp == "ok" || resp == "okay"

/-- `no_rank_phrases` (chat.py line 566) as substring checks of the lowered
message. -/
def noRankPhrase (msg : String) : Bool :=
  ["no rank", "don\x27t have", "dont have", "no", "don\x27t know", "not sure", "skip"].any
    fun p => hasSub p.data (pyLower msg).data

/-- Python `x or d` for an optional string (`None` and `""` are falsy). -/
def pyTruthyOr (v : Option String) (d : String) : String :=
  match v with
  | some x => if x == "" then d else x
  | none => d

/-- `collected.get("rank")` is falsy (absent, `None` is impossible here, or
`0`, which `extract_rank` never stores). -/
def rankFalsy : Option Nat → Bool
  | none => true
  | some n => n == 0

/-- The two rank re-prompts (chat.py lines 590–594). -/
def rankTooHighAsk : String :=
  "That rank seems too high. EAPCET ranks typically range from **1 to 2,00,000**. Please re-enter your correct rank."

def rankNotUnderstoodAsk : String :=
  "I couldn\x27t understand that. Please enter your **EAPCET rank** as a number (e.g., 5000).\n\nOr reply **no** if you just want to see cutoff ranks."

/-- Result of the per-stage extraction (chat.py lines 535–597): the degraded
no-rank early exit, a rank re-prompt leaving the dict untouched, or the
updated dict. -/
inductive CutExtract where
  | degrade : CutExtract
  | reprompt : String → CutExtract
  | proceed : CutoffData → CutExtract
deriving Repr

def cutoffExtract (env : Env) (msg : String) (c : CutoffData) : CutExtract :=
  if c.waitingFor == some CKey.branch then
    let vals := extract_branches msg
    if !vals.isEmpty then
      .proceed { c with branch := some (if vals == ["ALL"] then env.listBranches else vals) }
    else
      .proceed { c with branch := some [pyUpper (pyStrip msg)] }
  else if c.waitingFor == some CKey.category then
    -- `extract_category` never returns the empty string, so `if not val`
    -- is exactly the `none` case.
    let val := match extract_category msg with
      | some v => v
      | none => pyUpper (pyStrip msg)
    .proceed { c with category := some val }
  else if c.waitingFor == some CKey.gender then
    let val := match extract_gender msg with
      | some v => v
      | none =>
          let t := pyLower (pyStrip msg)
          if t == "boy" || t == "boys" || t == "male" || t == "m" then "Boys"
          else if t == "girl" || t == "girls" || t == "female" || t == "f" then "Girls"
          else pyStrip msg
    .proceed { c with gender := some val }
  else if c.waitingFor == some CKey.rank then
    if noRankPhrase msg then .degrade
    else
      match extract_rank msg.data with
      | some v => .proceed { c with rank := some v }
      | none =>
          match plainSearch msg.data with
          | some n => .reprompt (if 200000 < n then rankTooHighAsk else rankNotUnderstoodAsk)
          | none => .reprompt rankNotUnderstoodAsk
  else .proceed c

/-- The restart question of the reuse-confirmation "no" branch
(chat.py line 529). -/
def reuseRestartAsk (env : Env) : String :=
  "Sure! Let me help you check your eligibility.\n\nWhich **branch(es)** are you interested in? You can pick one, multiple (e.g. CSE, ECE, IT), or say **all**.\n\n" ++
  String.intercalate ", " env.listBranches

/-- One turn while the session is in cutoff-collection mode
(chat.py lines 472–643). -/
def cutoffMode (env : Env) (msg : String) (c : CutoffData) (s : SessionState) :
    SessionState × ChatReply :=
  if c.waitingFor == some CKey.confirmReuse then
    let resp := pyLower (pyStrip msg)
    if affirmative resp then
      -- copy `_reuse_data` into the collected fields (`.get` on a missing
      -- key would store `None`; `_reuse_data` is always present here)
      let c' := { c with branch := c.reuseData.map (fun rd : LastCutoff => rd.branch),
                         category := c.reuseData.map (fun rd : LastCutoff => rd.category),
                         gender := c.reuseData.map (fun rd : LastCutoff => rd.gender) }
      match c.extractedRank with
      | some r =>
          let reply := build_multi_branch_reply env (c'.branch.getD [])
            (c'.category.getD "") (c'.gender.getD "") (some r)
          ({ s with cutoff := none, pendingIntent := none,
                    history := s.history ++ [⟨"user", msg⟩, ⟨"assistant", reply⟩] },
           ⟨reply, "eligibility", ["VNRVJIET Cutoff Database"]⟩)
      | none =>
          let ask := "Great! What is your **EAPCET rank**?"
          ({ s with cutoff := some { c' with waitingFor := some CKey.rank },
                    history := s.history ++ [⟨"user", msg⟩, ⟨"assistant", ask⟩] },
           ⟨ask, "cutoff", []⟩)
    else
      -- `collected.clear()`, restart eligibility from the branch question
      let ask := reuseRestartAsk env
      ({ s with cutoff := some { flow := CFlow.eligibility, waitingFor := some CKey.branch },
                history := s.history ++ [⟨"user", msg⟩, ⟨"assistant", ask⟩] },
       ⟨ask, "cutoff", []⟩)
  else
    match cutoffExtract env msg c with
    | .degrade =>
        let branches := c.branch.getD []
        let category := pyTruthyOr c.category "OC"
        let gender := pyTruthyOr c.gender "Boys"
        let reply := "No worries! Here are the cutoff ranks for reference:\n\n" ++
          build_multi_branch_reply env branches category gender none
        ({ s with cutoff := none, pendingIntent := none,
                  history := s.history ++ [⟨"user", msg⟩, ⟨"assistant", reply⟩] },
         ⟨reply, "cutoff", ["VNRVJIET Cutoff Database"]⟩)
    | .reprompt ask => (pushHist s msg ask, ⟨ask, "cutoff", []⟩)
    | .proceed c' =>
        match (cutFields c'.flow).find? (cutMissingB c') with
        | some f =>
            let c'' := { c' with waitingFor := some f }
            let ask := cutQuestion env f
            ({ s with cutoff := some c'',
                      history := s.history ++ [⟨"user", msg⟩, ⟨"assistant", ask⟩] },
             ⟨ask, "cutoff", []⟩)
        | none =>
            -- all fields collected (chat.py lines 613–643)
            let branches := c'.branch.getD []
            let category := c'.category.getD ""
            let gender := c'.gender.getD ""
            let last' := if rankFalsy c'.rank then
                some (⟨branches, category, gender⟩ : LastCutoff) else s.lastCutoff
            let reply := build_multi_branch_reply env branches category gender
              (if c'.rank.isSome then c'.rank else none)
            ({ s with cutoff := none, pendingIntent := none, lastCutoff := last',
                      history := s.history ++ [⟨"user", msg⟩, ⟨"assistant", reply⟩] },
             ⟨reply, "cutoff", ["VNRVJIET Cutoff Database"]⟩)

/-! ## Router (chat.py lines 645–818) -/

/-- `contact_keywords` (chat.py lines 646–651). -/
def contactKeywords : List String :=
  ["talk to admission", "speak with admission", "speak to someone", "talk to someone",
   "contact admission", "call me", "callback", "call back", "reach out",
   "not satisfied", "dissatisfied", "want to speak", "want to talk",
   "admission department", "admission team", "admission office"]

def isContactRequest (msg : String) : Bool :=
  contactKeywords.any fun k => hasSub k.data (pyLower msg).data

/-- The condition of the pending-intent override (chat.py line 672):
`_session_pending_intent.get(session_id) == "awaiting_cutoff_details"`. -/
def pendingOverrideActive (s : SessionState) : Bool :=
  s.pendingIntent == some "awaiting_cutoff_details"

def COLLEGE_NAME : String := "VNR Vignana Jyothi Institute of Engineering and Technology"
def COLLEGE_SHORT : String := "VNRVJIET"

def GREETING_REPLY : String :=
  "Hello! 👋 Welcome to the **" ++ COLLEGE_NAME ++ " (" ++ COLLEGE_SHORT ++
  ")** admissions assistant.\n\nI can help you with:\n• Admission process & eligibility\n• Branch-wise cutoff ranks\n• Required documents\n• Fee structure & scholarships\n• Campus & hostel information\n\nHow can I assist you today?"

def OUT_OF_SCOPE_REPLY : String :=
  "I can assist only with admissions information related to **" ++ COLLEGE_NAME ++
  "** (" ++ COLLEGE_SHORT ++ "). For other colleges, please refer to their official websites or counselling authorities."

/-- The common tail of the endpoint (chat.py lines 782–818): optional RAG
retrieval, the LLM answer, clearing the pending intent, appending and
trimming the history, deduplicating sources (`list(set(...))`, whose order
is irrelevant to the claims). -/
def finishLLM (env : Env) (msg : String) (s : SessionState) (intent : Intent)
    (cutoffInfo : String) (srcs : List String) : SessionState × ChatReply :=
  let useRag := intent == Intent.informational || intent == Intent.mixed
  let ragCtx := if useRag then env.ragContext msg else ""
  let srcs := if useRag then srcs ++ env.ragSources msg else srcs
  let reply := env.llm msg ragCtx cutoffInfo s.history
  ({ s with pendingIntent := none,
            history := trimHist (s.history ++ [⟨"user", msg⟩, ⟨"assistant", reply⟩]) },
   ⟨reply, intent.val, srcs.eraseDups⟩)

/-- The prefill of the collection dict from the triggering message
(chat.py lines 714–727): `extract_branches` (with `ALL` resolved against
`list_branches()`), `extract_category`, `extract_gender`, and — only for the
eligibility flow — `extract_rank`. -/
def routePrefill (env : Env) (msg : String) (intent : Intent) : CutoffData :=
  let isElig := intent == Intent.eligibility
  let branchesE := extract_branches msg
  { flow := if isElig then CFlow.eligibility else CFlow.cutoff,
    branch := if branchesE.isEmpty then none
      else some (if branchesE == ["ALL"] then env.listBranches else branchesE),
    category := extract_category msg,
    gender := extract_gender msg,
    rank := if isElig then extract_rank msg.data else none }

/-- The cutoff / eligibility routing branch (chat.py lines 707–780):
all-fields-present resolves at once through the LLM tail, otherwise the
ReuseAdvisor offer (eligibility with a saved cutoff and no branch in the
message) or the start of step-by-step collection. -/
def routeCutoffIntent (env : Env) (msg : String) (s : SessionState) (intent : Intent) :
    SessionState × ChatReply :=
  let isElig := intent == Intent.eligibility
  let collected := routePrefill env msg intent
  let allPresent := (cutFields collected.flow).all fun f => !cutMissingB collected f
  if allPresent then
    let cutoffInfo := build_multi_branch_reply env (collected.branch.getD [])
      ((extract_category msg).getD "") ((extract_gender msg).getD "")
      (if isElig then extract_rank msg.data else none)
    finishLLM env msg s intent cutoffInfo ["VNRVJIET Cutoff Database"]
  else if isElig && s.lastCutoff.isSome && collected.branch.isNone then
    -- ReuseAdvisor transition (chat.py lines 740–762)
    let last := s.lastCutoff.getD ⟨[], "", ""⟩
    let c' := { collected with
                waitingFor := some CKey.confirmReuse,
                reuseData := some last,
                extractedRank := if collected.rank.isSome then collected.rank else none }
    let branchStr := String.intercalate ", " last.branch
    let ask := "I see you just asked about **" ++ branchStr ++ "** / **" ++
      last.category ++ "** category / **" ++ last.gender ++
      "**. Would you like me to check eligibility for the same?\n\nReply **YES** to use these details, or provide new branch/category/gender."
    ({ s with cutoff := some c',
              history := s.history ++ [⟨"user", msg⟩, ⟨"assistant", ask⟩] },
     ⟨ask, intent.val, []⟩)
  else
    match (cutFields collected.flow).find? (cutMissingB collected) with
    | some f =>
        let c' := { collected with waitingFor := some f }
        let intro := if isElig then "Sure! Let me help you check your eligibility."
          else "Sure! Let me show you the cutoff ranks."
        let ask := if f == CKey.branch then intro ++ "\n\n" ++ cutQuestion env f
          else cutQuestion env f
        ({ s with cutoff := some c',
                  history := s.history ++ [⟨"user", msg⟩, ⟨"assistant", ask⟩] },
         ⟨ask, intent.val, []⟩)
    | none => finishLLM env msg s intent "" []

/-- Routing when no flow is active (chat.py lines 645–818): contact-keyword
check, classification with the (dead) pending-intent override, greeting /
out-of-scope shortcuts, the cutoff/eligibility branch, and the RAG + LLM
tail.  (The source also computes `extract_branch` and `extract_year` here
but never uses them.) -/
def routeMode (env : Env) (msg : String) (s : SessionState) :
    SessionState × ChatReply :=
  if isContactRequest msg then
    let ask := contactQuestion {} "name"
    ({ s with contact := some { waitingFor := some "name" },
              history := s.history ++ [⟨"user", msg⟩, ⟨"assistant", ask⟩] },
     ⟨ask, "contact_request", []⟩)
  else
    let intent0 := env.classify msg
    let intent := if pendingOverrideActive s && intent0 == Intent.informational then
        Intent.cutoff else intent0
    if intent == Intent.greeting then
      ({ s with history := s.history ++ [⟨"user", msg⟩, ⟨"assistant", GREETING_REPLY⟩] },
       ⟨GREETING_REPLY, intent.val, []⟩)
    else if intent == Intent.outOfScope then
      ({ s with history := s.history ++ [⟨"user", msg⟩, ⟨"assistant", OUT_OF_SCOPE_REPLY⟩] },
       ⟨OUT_OF_SCOPE_REPLY, intent.val, []⟩)
    else if intent == Intent.cutoff || intent == Intent.eligibility || intent == Intent.mixed then
      routeCutoffIntent env msg s intent
    else finishLLM env msg s intent "" []

/-! ## The endpoint -/

/-- One call of `chat` for a fixed session id, after rate limiting and
sanitisation (the body from line 308 on). -/
def sessionStep (env : Env) (msg : String) (s : SessionState) :
    SessionState × ChatReply :=
  match s.contact with
  | some c => contactMode env msg c s
  | none =>
      match s.cutoff with
      | some c => cutoffMode env msg c s
      | none => routeMode env msg s

/-- One full call of `chat` (chat.py lines 292–818): rate limit first, then
sanitisation and the empty-message rejection, then the session logic. -/
def chatStep (env : Env) (now : ℤ) (raw : String) (st : ServerState) :
    ServerState × Outcome :=
  let rl := check_rate_limit env.rateLimit now st.bucket
  if !rl.1 then ({ st with bucket := rl.2 }, Outcome.rateLimited)
  else
    let msg := sanitise_input raw
    if msg == "" then ({ st with bucket := rl.2 }, Outcome.emptyMessage)
    else
      let step := sessionStep env msg st.sess
      ({ bucket := rl.2, sess := step.1 }, Outcome.ok step.2)

/-- One request: the environment/configuration visible to that call, its
arrival time and its raw message text. -/
structure ChatInput where
  env : Env
  now : ℤ
  message : String

/-- The server state after a sequence of calls, starting from empty tables
(a fresh session and rate bucket). -/
def runChat (inputs : List ChatInput) : ServerState :=
  inputs.foldl (fun st i => (chatStep i.env i.now i.message st).1) {}

/-! ## Helper lemmas: rate limiter -/

theorem crl_reject (limit : Nat) (now : ℤ) (bucket : List ℤ)
    (h : limit ≤ (bucket.filter (fun t => now - t < 60)).length) :
    check_rate_limit limit now bucket =
      (false, bucket.filter (fun t => now - t < 60)) := by
  simp [check_rate_limit, h]

theorem crl_admit (limit : Nat) (now : ℤ) (bucket : List ℤ)
    (h : ¬ limit ≤ (bucket.filter (fun t => now - t < 60)).length) :
    check_rate_limit limit now bucket =
      (true, bucket.filter (fun t => now - t < 60) ++ [now]) := by
  simp [check_rate_limit, h]

theorem chatStep_reject (env : Env) (now : ℤ) (raw : String) (st : ServerState)
    (h : env.rateLimit ≤ (st.bucket.filter (fun t => now - t < 60)).length) :
    chatStep env now raw st =
      ({ st with bucket := st.bucket.filter (fun t => now - t < 60) },
       Outcome.rateLimited) := by
  simp [chatStep, crl_reject _ _ _ h]

theorem chatStep_admit_bucket (env : Env) (now : ℤ) (raw : String) (st : ServerState)
    (h : ¬ env.rateLimit ≤ (st.bucket.filter (fun t => now - t < 60)).length) :
    (chatStep env now raw st).1.bucket =
      st.bucket.filter (fun t => now - t < 60) ++ [now] ∧
    (chatStep env now raw st).2 ≠ Outcome.rateLimited := by
  simp only [chatStep, crl_admit _ _ _ h]
  constructor
  · split
    · rfl
    · split
      · rfl
      · rfl
  · split
    · simp_all
    · split
      · simp
      · simp

/-! ## Theorems for the claims -/

/-- C3.  Rate-limiter admission: timestamps older than the 60-second window
are purged first, the call is rejected exactly when the remaining count
reaches the ceiling (`settings.RATE_LIMIT_PER_MINUTE`, default 30); on
rejection the current timestamp is not recorded and the whole state except
the purge is untouched (in particular no session state is created or
changed — the rejection is raised before the session dictionaries are
consulted); on admission `now` is appended; afterwards every timestamp in
the bucket lies within the window. -/
theorem c3_rate_limiter (env : Env) (now : ℤ) (raw : String) (st : ServerState) :
    ((chatStep env now raw st).2 = Outcome.rateLimited ↔
      env.rateLimit ≤ (st.bucket.filter (fun t => now - t < 60)).length) ∧
    ((chatStep env now raw st).2 = Outcome.rateLimited →
      (chatStep env now raw st).1 =
        { st with bucket := st.bucket.filter (fun t => now - t < 60) }) ∧
    ((chatStep env now raw st).2 ≠ Outcome.rateLimited →
      (chatStep env now raw st).1.bucket =
        st.bucket.filter (fun t => now - t < 60) ++ [now]) ∧
    (∀ t ∈ (chatStep env now raw st).1.bucket, now - t < 60) := by
  by_cases h : env.rateLimit ≤ (st.bucket.filter (fun t => now - t < 60)).length
  · refine ⟨⟨fun _ => h, fun _ => by simp [chatStep_reject _ _ _ _ h]⟩,
      fun _ => by simp [chatStep_reject _ _ _ _ h],
      fun hne => absurd (by simp [chatStep_reject _ _ _ _ h]) hne, ?_⟩
    intro t ht
    rw [chatStep_reject _ _ _ _ h] at ht
    simp only [List.mem_filter] at ht
    exact of_decide_eq_true ht.2
  · obtain ⟨hb, hne⟩ := chatStep_admit_bucket env now raw st h
    refine ⟨⟨fun hr => absurd hr hne, fun hr => absurd hr h⟩,
      fun hr => absurd hr hne, fun _ => hb, ?_⟩
    intro t ht
    rw [hb] at ht
    rcases List.mem_append.mp ht with h1 | h1
    · exact of_decide_eq_true (List.mem_filter.mp h1).2
    · simp only [List.mem_singleton] at h1
      subst h1; simp

/-- C3 witness: a concrete rejected call (ceiling 1, one in-window
timestamp) and a concrete admitted call. -/
theorem c3_rate_limiter_witness :
    (chatStep { rateLimit := 1 } 100 "hi" { bucket := [50] }).1 =
      ({ bucket := [50] } : ServerState) ∧
    (chatStep { rateLimit := 30 } 100 "hi" { bucket := [30, 50] }).1.bucket =
      [50, 100] := by
  constructor
  · exact (c3_rate_limiter { rateLimit := 1 } 100 "hi" { bucket := [50] }).2.1 (by decide)
  · exact (c3_rate_limiter { rateLimit := 30 } 100 "hi" { bucket := [30, 50] }).2.2.1 (by decide)

/-! ## Helper lemmas: digit strings and `extract_rank` -/

theorem digitChar_isDigit : ∀ d : Nat, d < 10 → (digitChar d).isDigit = true := by decide

theorem digitVal_digitChar : ∀ d : Nat, d < 10 → digitVal (digitChar d) = d := by decide

theorem natChars_digits (n : Nat) : ∀ c ∈ natChars n, c.isDigit = true := by
  intro c hc
  unfold natChars at hc
  by_cases h0 : n = 0
  · rw [if_pos h0] at hc
    simp only [List.mem_singleton] at hc
    subst hc; decide
  · rw [if_neg h0] at hc
    obtain ⟨d, hd, rfl⟩ := List.mem_map.mp hc
    exact digitChar_isDigit d
      (Nat.digits_lt_base (by norm_num) (List.mem_reverse.mp hd))

theorem natChars_ne_nil (n : Nat) : natChars n ≠ [] := by
  unfold natChars
  by_cases h0 : n = 0
  · rw [if_pos h0]; simp
  · rw [if_neg h0]
    simp only [ne_eq, List.map_eq_nil_iff, List.reverse_eq_nil_iff]
    exact Nat.digits_ne_nil_iff_ne_zero.mpr h0

theorem kSearchAux_digits :
    ∀ (cs : List Char) (st : Option Nat), (∀ c ∈ cs, c.isDigit = true) →
      kSearchAux st cs = none
  | [], _, _ => rfl
  | c :: t, st, h => by
      have hc := h c (List.mem_cons_self c t)
      simp only [kSearchAux, hc, if_true]
      exact kSearchAux_digits t _ (fun d hd => h d (List.mem_cons_of_mem c hd))

theorem plainSearchAux_digits :
    ∀ (t : List Char) (prevW : Bool) (a : Nat), (∀ c ∈ t, c.isDigit = true) →
      plainSearchAux prevW (some (a, true)) t = some (parseAcc a t)
  | [], _, a, _ => by simp [plainSearchAux, parseAcc]
  | c :: t, prevW, a, h => by
      have hc := h c (List.mem_cons_self c t)
      simp only [plainSearchAux, hc, if_true]
      rw [plainSearchAux_digits t prevW (10 * a + digitVal c)
        (fun d hd => h d (List.mem_cons_of_mem c hd))]
      simp [parseAcc]

theorem plainSearch_digits (c : Char) (t : List Char) (hc : c.isDigit = true)
    (ht : ∀ d ∈ t, d.isDigit = true) :
    plainSearch (c :: t) = some (parseAcc (digitVal c) t) := by
  simp only [plainSearch, plainSearchAux, hc, if_true, Bool.not_false]
  exact plainSearchAux_digits t true (digitVal c) ht

theorem parseAcc_rev_map : ∀ (L : List Nat), (∀ d ∈ L, d < 10) → ∀ a : Nat,
    parseAcc a (L.reverse.map digitChar) = a * 10 ^ L.length + Nat.ofDigits 10 L := by
  intro L
  induction L with
  | nil => intro _ a; simp [parseAcc, Nat.ofDigits]
  | cons d L ih =>
      intro h a
      have hd : d < 10 := h d (List.mem_cons_self d L)
      have hL : ∀ x ∈ L, x < 10 := fun x hx => h x (List.mem_cons_of_mem d hx)
      rw [List.reverse_cons, List.map_append]
      show parseAcc a (L.reverse.map digitChar ++ [digitChar d]) = _
      rw [show ∀ xs ys, parseAcc a (xs ++ ys) = parseAcc (parseAcc a xs) ys from
        fun xs ys => List.foldl_append .. ]
      rw [ih hL a]
      simp only [parseAcc, List.foldl_cons, List.foldl_nil, Nat.ofDigits_cons,
        digitVal_digitChar d hd, List.length_cons]
      ring

theorem parse_natChars (n : Nat) : parseAcc 0 (natChars n) = n := by
  unfold natChars
  by_cases h0 : n = 0
  · rw [if_pos h0, h0]; decide
  · rw [if_neg h0]
    rw [parseAcc_rev_map _ (fun d hd => Nat.digits_lt_base (by norm_num) hd) 0]
    simp [Nat.ofDigits_digits]

/-- `extract_rank` on the decimal text of a natural number. -/
theorem extract_rank_digits (n : Nat) :
    extract_rank (natChars n) = if 1 ≤ n && n ≤ 200000 then some n else none := by
  obtain ⟨c, t, hct⟩ : ∃ c t, natChars n = c :: t := by
    rcases hcs : natChars n with _ | ⟨c, t⟩
    · exact absurd hcs (natChars_ne_nil n)
    · exact ⟨c, t, rfl⟩
  have hall : ∀ d ∈ c :: t, d.isDigit = true := hct ▸ natChars_digits n
  have hc := hall c (List.mem_cons_self c t)
  have ht : ∀ d ∈ t, d.isDigit = true := fun d hd => hall d (List.mem_cons_of_mem c hd)
  have hparse : parseAcc (digitVal c) t = n := by
    have h0 : parseAcc 0 (c :: t) = n := hct ▸ parse_natChars n
    simpa [parseAcc] using h0
  rw [hct]
  unfold extract_rank
  rw [show kSearch (c :: t) = none from kSearchAux_digits (c :: t) none hall]
  rw [plainSearch_digits c t hc ht, hparse]

/-- C8, counterexample to the claim as stated: for the negative integer −5
(outside `[1, 200000]`), extraction on its decimal text `"-5"` does not
return null — the minus sign is not part of the `\b(\d+)\b` token, so the
digits `5` are extracted and accepted. -/
theorem c8_rank_counterexample : extract_rank (intChars (-5)) = some 5 := by
  have h5 : natChars 5 = ['5'] := by
    unfold natChars
    rw [if_neg (by norm_num)]
    rw [Nat.digits_def' (by norm_num : (1:ℕ) < 10) (by norm_num : 0 < 5)]
    norm_num
    decide
  have : intChars (-5) = '-' :: natChars 5 := by
    unfold intChars
    rw [if_pos (by norm_num)]
    rfl
  rw [this, h5]
  decide

/-- C8 (amended).  Rank extraction round-trips on `[1, 200000]`, and returns
null for every *non-negative* integer outside that range (negative input
text extracts the absolute value instead, see the counterexample); during
rank collection, a message with no acceptable rank and no escape phrase
re-prompts without touching the collection dict, and the re-prompt is the
distinct "too high" text exactly when the message contains a word-bounded
plain number above 200000, the generic "could not understand" text
otherwise. -/
theorem c8_rank_amended :
    (∀ n : Nat, 1 ≤ n → n ≤ 200000 → extract_rank (natChars n) = some n) ∧
    (∀ n : Nat, n = 0 ∨ 200000 < n → extract_rank (natChars n) = none) ∧
    rankTooHighAsk ≠ rankNotUnderstoodAsk ∧
    (∀ (env : Env) (msg : String) (c : CutoffData) (s : SessionState),
      s.contact = none → s.cutoff = some c → c.waitingFor = some CKey.rank →
      noRankPhrase msg = false → extract_rank msg.data = none →
      (sessionStep env msg s).1.cutoff = some c ∧
      (sessionStep env msg s).2.reply =
        (match plainSearch msg.data with
         | some n => if 200000 < n then rankTooHighAsk else rankNotUnderstoodAsk
         | none => rankNotUnderstoodAsk)) := by
  refine ⟨?_, ?_, by decide, ?_⟩
  · intro n h1 h2
    rw [extract_rank_digits n]
    simp [h1, h2]
  · intro n h
    rw [extract_rank_digits n]
    rcases h with h | h
    · subst h; simp
    · simp [show ¬ n ≤ 200000 from by omega]
  · intro env msg c s hcon hcut hw hnr hex
    have hstep : sessionStep env msg s = cutoffMode env msg c s := by
      unfold sessionStep
      rw [hcon, hcut]
    have hex2 : cutoffExtract env msg c =
        CutExtract.reprompt (match plainSearch msg.data with
          | some n => if 200000 < n then rankTooHighAsk else rankNotUnderstoodAsk
          | none => rankNotUnderstoodAsk) := by
      unfold cutoffExtract
      rw [hw, hnr, hex]
      cases hps : plainSearch msg.data with
      | none => rfl
      | some n => rfl
    have hcm : cutoffMode env msg c s =
        (pushHist s msg (match plainSearch msg.data with
          | some n => if 200000 < n then rankTooHighAsk else rankNotUnderstoodAsk
          | none => rankNotUnderstoodAsk),
         ⟨(match plainSearch msg.data with
          | some n => if 200000 < n then rankTooHighAsk else rankNotUnderstoodAsk
          | none => rankNotUnderstoodAsk), "cutoff", []⟩) := by
      unfold cutoffMode
      rw [hw, hex2]
      rfl
    rw [hstep, hcm]
    exact ⟨by simp [pushHist, hcut], rfl⟩

/-- C8 witness: the round-trip at 5000 and the two re-prompts at concrete
rank-stage inputs. -/
theorem c8_rank_amended_witness :
    extract_rank (natChars 5000) = some 5000 ∧
    ((sessionStep {} "300000"
        { cutoff := some { flow := CFlow.eligibility, waitingFor := some CKey.rank,
                           branch := some ["CSE"], category := some "OC",
                           gender := some "Boys" } }).1.cutoff =
      some { flow := CFlow.eligibility, waitingFor := some CKey.rank,
             branch := some ["CSE"], category := some "OC", gender := some "Boys" } ∧
     (sessionStep {} "300000"
        { cutoff := some { flow := CFlow.eligibility, waitingFor := some CKey.rank,
                           branch := some ["CSE"], category := some "OC",
                           gender := some "Boys" } }).2.reply =
        (match plainSearch "300000".data with
         | some n => if 200000 < n then rankTooHighAsk else rankNotUnderstoodAsk
         | none => rankNotUnderstoodAsk)) := by
  constructor
  · exact c8_rank_amended.1 5000 (by decide) (by decide)
  · exact c8_rank_amended.2.2.2 {} "300000" _ _ rfl rfl rfl (by decide) (by decide)

/-- C10.  The ALL keywords take absolute precedence in branch extraction:
whenever `\b(?:all|every|each)\b` matches the stripped, lowered text,
`extract_branches` returns `["ALL"]` regardless of any specific branches
also named; and at the branch stage of slot-filling such an answer stores
the whole `list_branches()` catalog. -/
theorem c10_all_branches :
    (∀ text : String, allKeyword text = true → extract_branches text = ["ALL"]) ∧
    (∀ (env : Env) (msg : String) (c : CutoffData),
      c.waitingFor = some CKey.branch → allKeyword msg = true →
      cutoffExtract env msg c =
        CutExtract.proceed { c with branch := some env.listBranches }) := by
  constructor
  · intro text h
    unfold extract_branches
    rw [h]
    rfl
  · intro env msg c hw h
    have hvals : extract_branches msg = ["ALL"] := by
      unfold extract_branches
      rw [h]
      rfl
    unfold cutoffExtract
    rw [hw, hvals]
    rfl

/-- C10 witness: `"all"` alone, and a branch-stage answer `"all of them"`
resolved against a concrete three-branch catalog. -/
theorem c10_all_branches_witness :
    extract_branches "all" = ["ALL"] ∧
    cutoffExtract { listBranches := ["CSE", "ECE", "IT"] } "all of them"
        { waitingFor := some CKey.branch } =
      CutExtract.proceed { waitingFor := some CKey.branch,
                           branch := some ["CSE", "ECE", "IT"] } := by
  constructor
  · exact c10_all_branches.1 "all" (by decide)
  · exact c10_all_branches.2 { listBranches := ["CSE", "ECE", "IT"] } "all of them"
      { waitingFor := some CKey.branch } rfl (by decide)

/-- C9.  The rank-stage "no rank" escape matches its phrases as substrings
of the lowered message and runs before numeric extraction, so the
rank-stage input `"i know my rank is 5000"` — which contains the in-range
rank 5000, but also `"no"` inside `"know"` — terminates the eligibility
flow early as a cutoff-only lookup (rank `none`), discarding the supplied
rank: the collection entry is deleted and the reply is the no-rank
degraded one. -/
theorem c9_no_rank_substring (env : Env) :
    hasSub "no".data (pyLower "i know my rank is 5000").data = true ∧
    extract_rank "i know my rank is 5000".data = some 5000 ∧
    (sessionStep env "i know my rank is 5000"
        { cutoff := some { flow := CFlow.eligibility, waitingFor := some CKey.rank,
                           branch := some ["CSE"], category := some "OC",
                           gender := some "Boys" } }).1.cutoff = none ∧
    (sessionStep env "i know my rank is 5000"
        { cutoff := some { flow := CFlow.eligibility, waitingFor := some CKey.rank,
                           branch := some ["CSE"], category := some "OC",
                           gender := some "Boys" } }).2.reply =
      "No worries! Here are the cutoff ranks for reference:\n\n" ++
        build_multi_branch_reply env ["CSE"] "OC" "Boys" none := by
  exact ⟨by decide, by decide, rfl, rfl⟩


/-! ## Helper lemmas: history growth, pending intent, flow invariant -/

theorem trimHist_len (h : List HMsg) :
    (trimHist h).length =
      if MAX_HISTORY * 2 < h.length then MAX_HISTORY * 2 else h.length := by
  unfold trimHist
  split
  · simp only [List.length_drop]
    omega
  · rfl

theorem contactMode_hist (env : Env) (msg : String) (c : ContactData) (s : SessionState) :
    (contactMode env msg c s).1.history.length = s.history.length + 2 := by
  simp only [contactMode, contactFinish]
  repeat' split
  all_goals simp [pushHist]

theorem cutoffMode_hist (env : Env) (msg : String) (k : CutoffData) (s : SessionState) :
    (cutoffMode env msg k s).1.history.length = s.history.length + 2 := by
  simp only [cutoffMode]
  repeat' split
  all_goals simp [pushHist]

theorem finishLLM_hist (env : Env) (msg : String) (s : SessionState) (i : Intent)
    (ci : String) (srcs : List String) :
    (finishLLM env msg s i ci srcs).1.history.length = s.history.length + 2 ∨
    (MAX_HISTORY * 2 < s.history.length + 2 ∧
     (finishLLM env msg s i ci srcs).1.history.length = MAX_HISTORY * 2) := by
  simp only [finishLLM]
  simp [trimHist_len]
  omega

theorem routeCutoffIntent_hist (env : Env) (msg : String) (s : SessionState) (intent : Intent) :
    (routeCutoffIntent env msg s intent).1.history.length = s.history.length + 2 ∨
    (MAX_HISTORY * 2 < s.history.length + 2 ∧
     (routeCutoffIntent env msg s intent).1.history.length = MAX_HISTORY * 2) := by
  simp only [routeCutoffIntent]
  repeat' split
  all_goals (try (left; simp [pushHist]; done))
  all_goals apply finishLLM_hist

theorem routeMode_hist (env : Env) (msg : String) (s : SessionState) :
    (routeMode env msg s).1.history.length = s.history.length + 2 ∨
    (MAX_HISTORY * 2 < s.history.length + 2 ∧
     (routeMode env msg s).1.history.length = MAX_HISTORY * 2) := by
  simp only [routeMode]
  repeat' split
  all_goals (try (left; simp [pushHist]; done))
  all_goals (first | apply routeCutoffIntent_hist | apply finishLLM_hist)

/-- Every branch of a session turn appends exactly the user/assistant pair;
only the final LLM path trims, and then to exactly `MAX_HISTORY * 2`. -/
theorem sessionStep_hist (env : Env) (msg : String) (s : SessionState) :
    (sessionStep env msg s).1.history.length = s.history.length + 2 ∨
    (MAX_HISTORY * 2 < s.history.length + 2 ∧
     (sessionStep env msg s).1.history.length = MAX_HISTORY * 2) := by
  unfold sessionStep
  cases s.contact with
  | some c => exact Or.inl (contactMode_hist env msg c s)
  | none =>
      cases s.cutoff with
      | some k => exact Or.inl (cutoffMode_hist env msg k s)
      | none => exact routeMode_hist env msg s

theorem contactMode_pending (env : Env) (msg : String) (c : ContactData) (s : SessionState) :
    (contactMode env msg c s).1.pendingIntent = s.pendingIntent := by
  simp only [contactMode, contactFinish]
  repeat' split
  all_goals rfl

theorem cutoffMode_pending (env : Env) (msg : String) (k : CutoffData) (s : SessionState) :
    (cutoffMode env msg k s).1.pendingIntent = none ∨
    (cutoffMode env msg k s).1.pendingIntent = s.pendingIntent := by
  simp only [cutoffMode]
  repeat' split
  all_goals simp [pushHist]

theorem finishLLM_pending (env : Env) (msg : String) (s : SessionState) (i : Intent)
    (ci : String) (srcs : List String) :
    (finishLLM env msg s i ci srcs).1.pendingIntent = none := rfl

theorem routeCutoffIntent_pending (env : Env) (msg : String) (s : SessionState) (intent : Intent) :
    (routeCutoffIntent env msg s intent).1.pendingIntent = none ∨
    (routeCutoffIntent env msg s intent).1.pendingIntent = s.pendingIntent := by
  simp only [routeCutoffIntent]
  repeat' split
  all_goals (try (right; rfl))
  all_goals (left; apply finishLLM_pending)

theorem routeMode_pending (env : Env) (msg : String) (s : SessionState) :
    (routeMode env msg s).1.pendingIntent = none ∨
    (routeMode env msg s).1.pendingIntent = s.pendingIntent := by
  simp only [routeMode]
  repeat' split
  all_goals (try (right; rfl))
  all_goals (first | apply routeCutoffIntent_pending | (left; apply finishLLM_pending))

/-- A turn only ever removes `_session_pending_intent[session_id]`; nothing
in the endpoint assigns it. -/
theorem sessionStep_pending (env : Env) (msg : String) (s : SessionState) :
    (sessionStep env msg s).1.pendingIntent = none ∨
    (sessionStep env msg s).1.pendingIntent = s.pendingIntent := by
  unfold sessionStep
  cases s.contact with
  | some c => exact Or.inr (contactMode_pending env msg c s)
  | none =>
      cases s.cutoff with
      | some k => exact cutoffMode_pending env msg k s
      | none => exact routeMode_pending env msg s

/-- The invariant of C1: a session sits in at most one of the two collection
tables, and a recorded entry always carries a `_waiting_for` value.  (An
unrecorded session has no collected-fields dict at all, so its waiting-for
field is vacuously null — the "iff" direction of the claim.) -/
def sessInv (s : SessionState) : Prop :=
  (s.contact.isSome = true → s.cutoff = none) ∧
  (∀ c, s.contact = some c → c.waitingFor.isSome = true) ∧
  (∀ k, s.cutoff = some k → k.waitingFor.isSome = true)

theorem contactMode_inv (env : Env) (msg : String) (c : ContactData) (s : SessionState)
    (hcon : s.contact = some c) (hcut : s.cutoff = none)
    (hwf : c.waitingFor.isSome = true) :
    sessInv (contactMode env msg c s).1 := by
  unfold sessInv
  simp only [contactMode, contactFinish]
  repeat' split
  all_goals simp_all [pushHist, contactSetWaiting]

theorem cutoffMode_inv (env : Env) (msg : String) (k : CutoffData) (s : SessionState)
    (hcon : s.contact = none) (hcut : s.cutoff = some k)
    (hwf : k.waitingFor.isSome = true) :
    sessInv (cutoffMode env msg k s).1 := by
  unfold sessInv
  simp only [cutoffMode]
  repeat' split
  all_goals simp_all [pushHist]

theorem routeCutoffIntent_inv (env : Env) (msg : String) (s : SessionState) (intent : Intent)
    (hcon : s.contact = none) (hcut : s.cutoff = none) :
    sessInv (routeCutoffIntent env msg s intent).1 := by
  unfold sessInv
  simp only [routeCutoffIntent, finishLLM]
  repeat' split
  all_goals simp_all [pushHist]

theorem routeMode_inv (env : Env) (msg : String) (s : SessionState)
    (hcon : s.contact = none) (hcut : s.cutoff = none) :
    sessInv (routeMode env msg s).1 := by
  simp only [routeMode, finishLLM]
  repeat' split
  all_goals (try exact routeCutoffIntent_inv env msg s _ hcon hcut)
  all_goals (unfold sessInv; simp_all [pushHist])

theorem sessionStep_inv (env : Env) (msg : String) (s : SessionState)
    (h : sessInv s) : sessInv (sessionStep env msg s).1 := by
  obtain ⟨h1, h2, h3⟩ := h
  unfold sessionStep
  cases hcon : s.contact with
  | some c =>
      exact contactMode_inv env msg c s hcon (h1 (by simp [hcon])) (h2 c hcon)
  | none =>
      cases hcut : s.cutoff with
      | some k => exact cutoffMode_inv env msg k s hcon hcut (h3 k hcut)
      | none => exact routeMode_inv env msg s hcon hcut

theorem chatStep_inv (env : Env) (now : ℤ) (raw : String) (st : ServerState)
    (h : sessInv st.sess) : sessInv (chatStep env now raw st).1.sess := by
  simp only [chatStep]
  repeat' split
  · exact h
  · exact h
  · exact sessionStep_inv env (sanitise_input raw) st.sess h

theorem chatStep_pending (env : Env) (now : ℤ) (raw : String) (st : ServerState)
    (h : st.sess.pendingIntent = none) :
    (chatStep env now raw st).1.sess.pendingIntent = none := by
  simp only [chatStep]
  repeat' split
  · exact h
  · exact h
  · rcases sessionStep_pending env (sanitise_input raw) st.sess with h' | h'
    · exact h'
    · exact h ▸ h'

theorem chatStep_hist (env : Env) (now : ℤ) (raw : String) (st : ServerState) :
    (chatStep env now raw st).1.sess.history.length = st.sess.history.length ∨
    (chatStep env now raw st).1.sess.history.length = st.sess.history.length + 2 ∨
    (MAX_HISTORY * 2 < st.sess.history.length + 2 ∧
     (chatStep env now raw st).1.sess.history.length = MAX_HISTORY * 2) := by
  simp only [chatStep]
  repeat' split
  · exact Or.inl rfl
  · exact Or.inl rfl
  · exact Or.inr (sessionStep_hist env (sanitise_input raw) st.sess)

theorem foldl_inv : ∀ (inputs : List ChatInput) (st : ServerState), sessInv st.sess →
    sessInv (List.foldl (fun st j => (chatStep j.env j.now j.message st).1) st inputs).sess
  | [], _, h => h
  | i :: inputs, st, h =>
      foldl_inv inputs _ (chatStep_inv i.env i.now i.message st h)

theorem foldl_pending : ∀ (inputs : List ChatInput) (st : ServerState),
    st.sess.pendingIntent = none →
    (List.foldl (fun st j => (chatStep j.env j.now j.message st).1)
      st inputs).sess.pendingIntent = none
  | [], _, h => h
  | i :: inputs, st, h =>
      foldl_pending inputs _ (chatStep_pending i.env i.now i.message st h)

/-- C1.  After any sequence of completed chat calls starting from the empty
store, a session is recorded in at most one of the two collection tables
(contact vs cutoff/eligibility), and a recorded entry always has a non-null
`_waiting_for` value; a session outside both tables has no collected-fields
dict, hence no waiting-for value — together the claimed "non-null iff a
flow is active". -/
theorem c1_flow_invariant (inputs : List ChatInput) :
    ((runChat inputs).sess.contact.isSome = true → (runChat inputs).sess.cutoff = none) ∧
    (∀ c, (runChat inputs).sess.contact = some c → c.waitingFor.isSome = true) ∧
    (∀ k, (runChat inputs).sess.cutoff = some k → k.waitingFor.isSome = true) := by
  have h := foldl_inv inputs {} ⟨by simp, by simp, by simp⟩
  exact h

/-- C2, counterexample to the cap as stated: one "call me" turn (starting
the contact flow) followed by ten invalid one-character name answers gives
eleven completed chat calls whose history holds 22 entries — above the
`MAX_HISTORY * 2 = 20` cap, because flow turns append without trimming. -/
theorem c2_history_cap_counterexample :
    (runChat (⟨{}, 0, "call me"⟩ :: List.replicate 10 ⟨{}, 0, "x"⟩)).sess.history.length = 22 ∧
    MAX_HISTORY * 2 < 22 := by
  constructor
  · decide
  · decide

/-- C2 (amended).  Each chat call appends at most one user/assistant pair,
and the cap is enforced — by evicting oldest entries down to exactly
`MAX_HISTORY * 2` — only on turns that reach the final LLM-generation path;
flow-collection, greeting, out-of-scope, contact and reuse turns append
their pair with no eviction, so the stored history can exceed the cap (see
the counterexample). -/
theorem c2_history_growth_amended (env : Env) (now : ℤ) (raw : String) (st : ServerState) :
    (chatStep env now raw st).1.sess.history.length = st.sess.history.length ∨
    (chatStep env now raw st).1.sess.history.length = st.sess.history.length + 2 ∨
    (MAX_HISTORY * 2 < st.sess.history.length + 2 ∧
     (chatStep env now raw st).1.sess.history.length = MAX_HISTORY * 2) :=
  chatStep_hist env now raw st

/-- C4.  The pending-intent hint is dead code: `_session_pending_intent` is
never assigned anywhere in the endpoint (it is only read and popped), so in
every state reachable by chat calls the flag is absent and the
informational→cutoff override condition (chat.py line 672) is false — the
override can never fire, contradicting the claimed behaviour. -/
theorem c4_pending_intent_dead (inputs : List ChatInput) :
    (runChat inputs).sess.pendingIntent = none ∧
    pendingOverrideActive (runChat inputs).sess = false := by
  have h : (runChat inputs).sess.pendingIntent = none := foldl_pending inputs {} rfl
  exact ⟨h, by simp [pendingOverrideActive, h]⟩

/-! ## Helper lemmas: the reuse-confirmation transition -/

theorem mem_cutFields_ne_confirm (fl : CFlow) (f : CKey) (h : f ∈ cutFields fl) :
    f ≠ CKey.confirmReuse := by
  cases fl with
  | cutoff =>
      simp [cutFields] at h
      rcases h with rfl | rfl | rfl <;> decide
  | eligibility =>
      simp [cutFields] at h
      rcases h with rfl | rfl | rfl | rfl <;> decide

theorem branch_mem_cutFields (fl : CFlow) : CKey.branch ∈ cutFields fl := by
  cases fl <;> simp [cutFields]

theorem routePrefill_branch_none (env : Env) (msg : String) (intent : Intent) :
    (routePrefill env msg intent).branch = none ↔ extract_branches msg = [] := by
  by_cases he : extract_branches msg = []
  · simp [routePrefill, he]
  · simp [routePrefill, he]

/-- The cutoff-intent routing branch enters `_confirm_reuse` exactly when
the flow is eligibility, a `lastCompletedCutoff` snapshot exists, and the
message supplied no branch. -/
theorem routeCutoffIntent_confirm (env : Env) (msg : String) (s : SessionState)
    (intent : Intent) (hcut : s.cutoff = none) :
    (∃ c', (routeCutoffIntent env msg s intent).1.cutoff = some c' ∧
           c'.waitingFor = some CKey.confirmReuse) ↔
    ((intent == Intent.eligibility) = true ∧ s.lastCutoff.isSome = true ∧
      extract_branches msg = []) := by
  simp only [routeCutoffIntent]
  by_cases hall : ((cutFields (routePrefill env msg intent).flow).all
      fun f => !cutMissingB (routePrefill env msg intent) f) = true
  · rw [if_pos hall]
    simp only [finishLLM]
    constructor
    · rintro ⟨c', hc', _⟩
      rw [hcut] at hc'
      exact absurd hc' (by simp)
    · rintro ⟨_, _, hbe⟩
      have hb : cutMissingB (routePrefill env msg intent) CKey.branch = true := by
        simp [cutMissingB, (routePrefill_branch_none env msg intent).mpr hbe]
      have := List.all_eq_true.mp hall CKey.branch (branch_mem_cutFields _)
      simp [hb] at this
  · rw [if_neg hall]
    by_cases hre : ((intent == Intent.eligibility) && s.lastCutoff.isSome &&
        (routePrefill env msg intent).branch.isNone) = true
    · rw [if_pos hre]
      simp only [Bool.and_eq_true] at hre
      constructor
      · rintro ⟨c', hc', hw⟩
        refine ⟨hre.1.1, hre.1.2, ?_⟩
        exact (routePrefill_branch_none env msg intent).mp
          (Option.isNone_iff_eq_none.mp hre.2)
      · rintro _
        exact ⟨_, rfl, rfl⟩
    · rw [if_neg hre]
      constructor
      · rintro ⟨c', hc', hw⟩
        cases hf : (cutFields (routePrefill env msg intent).flow).find?
            (cutMissingB (routePrefill env msg intent)) with
        | some f =>
            rw [hf] at hc'
            simp only [Option.some.injEq] at hc'
            have hfm := mem_cutFields_ne_confirm _ f (List.mem_of_find?_eq_some hf)
            rw [← hc'] at hw
            simp at hw
            exact absurd hw hfm
        | none =>
            rw [hf] at hc'
            simp only [finishLLM] at hc'
            rw [hcut] at hc'
            exact absurd hc' (by simp)
      · rintro ⟨h1, h2, h3⟩
        exfalso
        apply hre
        simp only [Bool.and_eq_true]
        exact ⟨⟨h1, h2⟩, by
          simp [Option.isNone_iff_eq_none,
            (routePrefill_branch_none env msg intent).mpr h3]⟩

theorem routeMode_confirm (env : Env) (msg : String) (s : SessionState)
    (hcut : s.cutoff = none) (hck : isContactRequest msg = false) :
    (∃ c', (routeMode env msg s).1.cutoff = some c' ∧
           c'.waitingFor = some CKey.confirmReuse) ↔
    (env.classify msg = Intent.eligibility ∧ s.lastCutoff.isSome = true ∧
     extract_branches msg = []) := by
  simp only [routeMode, hck, Bool.false_eq_true, if_false]
  have hnofire : ∀ i : Intent, (i == Intent.eligibility) = false →
      ¬ ∃ c', (routeCutoffIntent env msg s i).1.cutoff = some c' ∧
              c'.waitingFor = some CKey.confirmReuse := by
    intro i hi h
    obtain ⟨h1, _, _⟩ := (routeCutoffIntent_confirm env msg s i hcut).mp h
    rw [hi] at h1
    exact absurd h1 (by decide)
  cases hcls : env.classify msg with
  | informational =>
      by_cases hpo : pendingOverrideActive s = true
      · simp only [hpo, hcls]
        simp only [show (Intent.informational == Intent.informational) = true from rfl,
          Bool.true_and, Bool.and_true, if_pos, if_true]
        simp only [show (Intent.cutoff == Intent.greeting) = false from rfl,
          show (Intent.cutoff == Intent.outOfScope) = false from rfl,
          show (Intent.cutoff == Intent.cutoff) = true from rfl,
          Bool.false_eq_true, if_false, Bool.true_or, if_true]
        constructor
        · intro h
          exact absurd h (hnofire Intent.cutoff (by decide))
        · rintro ⟨h1, _⟩
          exact absurd h1 (by decide)
      · simp only [Bool.not_eq_true] at hpo
        simp only [hpo, hcls, Bool.false_and, Bool.false_eq_true, if_false]
        simp only [show (Intent.informational == Intent.greeting) = false from rfl,
          show (Intent.informational == Intent.outOfScope) = false from rfl,
          show (Intent.informational == Intent.cutoff) = false from rfl,
          show (Intent.informational == Intent.eligibility) = false from rfl,
          show (Intent.informational == Intent.mixed) = false from rfl,
          Bool.false_eq_true, if_false, Bool.false_or, or_self]
        simp only [finishLLM]
        constructor
        · rintro ⟨c', hc', _⟩
          rw [hcut] at hc'
          exact absurd hc' (by simp)
        · rintro ⟨h1, _⟩
          exact absurd h1 (by decide)
  | cutoff =>
      simp only [show (Intent.cutoff == Intent.informational) = false from rfl,
        Bool.and_false, Bool.false_eq_true, if_false,
        show (Intent.cutoff == Intent.greeting) = false from rfl,
        show (Intent.cutoff == Intent.outOfScope) = false from rfl,
        show (Intent.cutoff == Intent.cutoff) = true from rfl, Bool.true_or, if_true]
      constructor
      · intro h
        exact absurd h (hnofire Intent.cutoff (by decide))
      · rintro ⟨h1, _⟩
        exact absurd h1 (by decide)
  | eligibility =>
      simp only [show (Intent.eligibility == Intent.informational) = false from rfl,
        Bool.and_false, Bool.false_eq_true, if_false,
        show (Intent.eligibility == Intent.greeting) = false from rfl,
        show (Intent.eligibility == Intent.outOfScope) = false from rfl,
        show (Intent.eligibility == Intent.cutoff) = false from rfl,
        show (Intent.eligibility == Intent.eligibility) = true from rfl,
        Bool.false_or, Bool.true_or, if_true]
      have := routeCutoffIntent_confirm env msg s Intent.eligibility hcut
      simpa using this
  | mixed =>
      simp only [show (Intent.mixed == Intent.informational) = false from rfl,
        Bool.and_false, Bool.false_eq_true, if_false,
        show (Intent.mixed == Intent.greeting) = false from rfl,
        show (Intent.mixed == Intent.outOfScope) = false from rfl,
        show (Intent.mixed == Intent.cutoff) = false from rfl,
        show (Intent.mixed == Intent.eligibility) = false from rfl,
        show (Intent.mixed == Intent.mixed) = true from rfl,
        Bool.false_or, Bool.true_or, if_true]
      constructor
      · intro h
        exact absurd h (hnofire Intent.mixed (by decide))
      · rintro ⟨h1, _⟩
        exact absurd h1 (by decide)
  | outOfScope =>
      simp only [show (Intent.outOfScope == Intent.informational) = false from rfl,
        Bool.and_false, Bool.false_eq_true, if_false,
        show (Intent.outOfScope == Intent.greeting) = false from rfl,
        show (Intent.outOfScope == Intent.outOfScope) = true from rfl, if_true]
      constructor
      · rintro ⟨c', hc', _⟩
        rw [hcut] at hc'
        exact absurd hc' (by simp)
      · rintro ⟨h1, _⟩
        exact absurd h1 (by decide)
  | greeting =>
      simp only [show (Intent.greeting == Intent.informational) = false from rfl,
        Bool.and_false, Bool.false_eq_true, if_false,
        show (Intent.greeting == Intent.greeting) = true from rfl, if_true]
      constructor
      · rintro ⟨c', hc', _⟩
        rw [hcut] at hc'
        exact absurd hc' (by simp)
      · rintro ⟨h1, _⟩
        exact absurd h1 (by decide)

/-- C5, counterexample to condition (b) of the claim as stated: the
reuse-confirmation transition also fires for a message that supplies *no
rank* at all — `"am i eligible"` (router verdict eligibility, no branch,
no rank) with a saved cutoff snapshot still enters
`AWAITING_REUSE_CONFIRMATION`, with no extracted rank carried. -/
theorem c5_reuse_trigger_counterexample :
    extract_rank "am i eligible".data = none ∧
    (sessionStep { classify := fun _ => Intent.eligibility } "am i eligible"
        { lastCutoff := some ⟨["CSE"], "OC", "Boys"⟩ }).1.cutoff =
      some { flow := CFlow.eligibility, waitingFor := some CKey.confirmReuse,
             reuseData := some ⟨["CSE"], "OC", "Boys"⟩ } := by
  constructor
  · decide
  · decide

/-- C5 (amended).  With no flow active and no contact keyword in the
message, the session enters `AWAITING_REUSE_CONFIRMATION` **iff** (a) the
classifier selected eligibility, (b′) the message supplied no branch, and
(c) a last-completed-cutoff snapshot exists — a rank in the message is NOT
required (it is merely carried forward when present). -/
theorem c5_reuse_trigger_amended (env : Env) (msg : String) (s : SessionState)
    (hcon : s.contact = none) (hcut : s.cutoff = none)
    (hck : isContactRequest msg = false) :
    (∃ c', (sessionStep env msg s).1.cutoff = some c' ∧
           c'.waitingFor = some CKey.confirmReuse) ↔
    (env.classify msg = Intent.eligibility ∧ s.lastCutoff.isSome = true ∧
     extract_branches msg = []) := by
  have hstep : sessionStep env msg s = routeMode env msg s := by
    unfold sessionStep
    rw [hcon, hcut]
  rw [hstep]
  exact routeMode_confirm env msg s hcut hck

/-- C5 witness: the transition at a concrete eligibility message with a
saved snapshot. -/
theorem c5_reuse_trigger_witness :
    ∃ c', (sessionStep { classify := fun _ => Intent.eligibility } "am i eligible"
        { lastCutoff := some ⟨["CSE"], "OC", "Boys"⟩ }).1.cutoff = some c' ∧
      c'.waitingFor = some CKey.confirmReuse :=
  (c5_reuse_trigger_amended { classify := fun _ => Intent.eligibility } "am i eligible"
      { lastCutoff := some ⟨["CSE"], "OC", "Boys"⟩ } rfl rfl (by decide)).mpr
    ⟨rfl, rfl, by decide⟩

/-- C6.  Reuse-confirmation resolution with a carried-forward rank: an
affirmative reply (the fixed vocabulary yes/y/yeah/yep/sure/ok/okay, after
strip+lower) copies the saved `{branch, category, gender}` into the
collected fields and resolves eligibility immediately with the carried
rank — the collection entry is deleted, so branch/category/gender are
never re-asked; any other reply discards the saved context and restarts
eligibility collection from the branch question. -/
theorem c6_reuse_resolution (env : Env) (msg : String) (s : SessionState)
    (c : CutoffData) (snap : LastCutoff) (r : Nat)
    (hcon : s.contact = none) (hcut : s.cutoff = some c)
    (hw : c.waitingFor = some CKey.confirmReuse)
    (hrd : c.reuseData = some snap) (her : c.extractedRank = some r) :
    (affirmative (pyLower (pyStrip msg)) = true →
      (sessionStep env msg s).1.cutoff = none ∧
      (sessionStep env msg s).2.reply =
        build_multi_branch_reply env snap.branch snap.category snap.gender (some r) ∧
      (sessionStep env msg s).2.intent = "eligibility") ∧
    (affirmative (pyLower (pyStrip msg)) = false →
      (sessionStep env msg s).1.cutoff =
        some { flow := CFlow.eligibility, waitingFor := some CKey.branch } ∧
      (sessionStep env msg s).2.reply = reuseRestartAsk env ∧
      (sessionStep env msg s).2.intent = "cutoff") := by
  have hstep : sessionStep env msg s = cutoffMode env msg c s := by
    unfold sessionStep
    rw [hcon, hcut]
  rw [hstep]
  simp only [cutoffMode, hw,
    show (some CKey.confirmReuse == some CKey.confirmReuse) = true from rfl, if_true]
  constructor
  · intro ha
    simp only [ha, if_true, her, hrd, Option.map_some', Option.getD_some]
    refine ⟨?_, ?_, ?_⟩ <;> first | rfl | trivial
  · intro ha
    simp only [ha, Bool.false_eq_true, if_false]
    refine ⟨?_, ?_, ?_⟩ <;> first | rfl | trivial

/-- C6 witness: a concrete awaiting-reuse session (snapshot CSE/OC/Boys,
carried rank 5000) answered "yes", and the same session answered "hmm". -/
theorem c6_reuse_resolution_witness :
    ((sessionStep {} "yes"
        { cutoff := some { flow := CFlow.eligibility, waitingFor := some CKey.confirmReuse,
                           reuseData := some ⟨["CSE"], "OC", "Boys"⟩,
                           extractedRank := some 5000 } }).1.cutoff = none ∧
     (sessionStep {} "yes"
        { cutoff := some { flow := CFlow.eligibility, waitingFor := some CKey.confirmReuse,
                           reuseData := some ⟨["CSE"], "OC", "Boys"⟩,
                           extractedRank := some 5000 } }).2.reply =
        build_multi_branch_reply {} ["CSE"] "OC" "Boys" (some 5000) ∧
     (sessionStep {} "yes"
        { cutoff := some { flow := CFlow.eligibility, waitingFor := some CKey.confirmReuse,
                           reuseData := some ⟨["CSE"], "OC", "Boys"⟩,
                           extractedRank := some 5000 } }).2.intent = "eligibility") ∧
    ((sessionStep {} "hmm"
        { cutoff := some { flow := CFlow.eligibility, waitingFor := some CKey.confirmReuse,
                           reuseData := some ⟨["CSE"], "OC", "Boys"⟩,
                           extractedRank := some 5000 } }).1.cutoff =
        some { flow := CFlow.eligibility, waitingFor := some CKey.branch } ∧
     (sessionStep {} "hmm"
        { cutoff := some { flow := CFlow.eligibility, waitingFor := some CKey.confirmReuse,
                           reuseData := some ⟨["CSE"], "OC", "Boys"⟩,
                           extractedRank := some 5000 } }).2.reply = reuseRestartAsk {}) := by
  constructor
  · exact (c6_reuse_resolution {} "yes" _ _ ⟨["CSE"], "OC", "Boys"⟩ 5000
      rfl rfl rfl rfl rfl).1 (by decide)
  · exact ⟨((c6_reuse_resolution {} "hmm" _ _ ⟨["CSE"], "OC", "Boys"⟩ 5000
      rfl rfl rfl rfl rfl).2 (by decide)).1,
     ((c6_reuse_resolution {} "hmm" _ _ ⟨["CSE"], "OC", "Boys"⟩ 5000
      rfl rfl rfl rfl rfl).2 (by decide)).2.1⟩

/-! ## Helper lemmas: the last-completed-cutoff snapshot -/

theorem contactMode_last (env : Env) (msg : String) (c : ContactData) (s : SessionState) :
    (contactMode env msg c s).1.lastCutoff = s.lastCutoff := by
  simp only [contactMode, contactFinish]
  repeat' split
  all_goals rfl

theorem routeCutoffIntent_last (env : Env) (msg : String) (s : SessionState) (i : Intent) :
    (routeCutoffIntent env msg s i).1.lastCutoff = s.lastCutoff := by
  simp only [routeCutoffIntent, finishLLM]
  repeat' split
  all_goals rfl

theorem routeMode_last (env : Env) (msg : String) (s : SessionState) :
    (routeMode env msg s).1.lastCutoff = s.lastCutoff := by
  simp only [routeMode, finishLLM]
  repeat' split
  all_goals (first | rfl | apply routeCutoffIntent_last)

/-- C7, counterexample to "including a flow that is already complete from
the triggering message": the message `"cse oc boys cutoff"` resolves a
cutoff query immediately (branch, category and gender prefilled; the
cutoff-database source is attached) without a rank, yet the
last-completed-cutoff snapshot is NOT saved — the immediate-resolution path
never writes `_session_last_cutoff`. -/
theorem c7_snapshot_counterexample :
    extract_rank "cse oc boys cutoff".data = none ∧
    (sessionStep { classify := fun _ => Intent.cutoff } "cse oc boys cutoff" {}).2.sources =
      ["VNRVJIET Cutoff Database"] ∧
    (sessionStep { classify := fun _ => Intent.cutoff } "cse oc boys cutoff" {}).1.lastCutoff =
      none := by
  refine ⟨by decide, by decide, by decide⟩

/-- C7 (amended).  The snapshot is written only when the step-by-step
collection loop completes (the collection entry is deleted in the same
turn) with a falsy rank, and it then holds exactly the completed
branch/category/gender; it is never cleared — once present it stays
present, at most overwritten.  The immediately-complete routing path and
the rank-stage no-rank degrade path do not save it (see the
counterexample). -/
theorem c7_snapshot_amended (env : Env) (msg : String) (s : SessionState) :
    ((sessionStep env msg s).1.lastCutoff ≠ s.lastCutoff →
      ∃ c c', s.cutoff = some c ∧
        cutoffExtract env msg c = CutExtract.proceed c' ∧
        (cutFields c'.flow).find? (cutMissingB c') = none ∧
        rankFalsy c'.rank = true ∧
        (sessionStep env msg s).1.cutoff = none ∧
        (sessionStep env msg s).1.lastCutoff =
          some ⟨c'.branch.getD [], c'.category.getD "", c'.gender.getD ""⟩) ∧
    (s.lastCutoff.isSome = true → (sessionStep env msg s).1.lastCutoff.isSome = true) := by
  unfold sessionStep
  cases hcon : s.contact with
  | some c =>
      rw [contactMode_last]
      exact ⟨fun h => absurd rfl h, fun h => h⟩
  | none =>
      cases hcut : s.cutoff with
      | none =>
          rw [routeMode_last]
          exact ⟨fun h => absurd rfl h, fun h => h⟩
      | some k =>
          simp only [cutoffMode]
          repeat' split
          all_goals (try exact ⟨fun h => absurd rfl h, fun h => h⟩)
          all_goals exact ⟨fun _ => ⟨k, _, rfl, by assumption, by assumption,
            by assumption, rfl, rfl⟩, fun _ => rfl⟩

/-- The session used by the C7 witness: a cutoff collection at the gender
stage with branch and category already filled. -/
def genderStageSession : SessionState :=
  { cutoff := some { flow := CFlow.cutoff, waitingFor := some CKey.gender,
                     branch := some ["CSE"], category := some "OC" } }

/-- C7 witness: the gender-stage collection answered "boys" completes
without a rank and saves the snapshot. -/
theorem c7_snapshot_amended_witness :
    ∃ c c', genderStageSession.cutoff = some c ∧
      cutoffExtract {} "boys" c = CutExtract.proceed c' ∧
      (cutFields c'.flow).find? (cutMissingB c') = none ∧
      rankFalsy c'.rank = true ∧
      (sessionStep {} "boys" genderStageSession).1.cutoff = none ∧
      (sessionStep {} "boys" genderStageSession).1.lastCutoff =
        some ⟨c'.branch.getD [], c'.category.getD "", c'.gender.getD ""⟩ :=
  (c7_snapshot_amended {} "boys" genderStageSession).1 (by decide)

/-- C1 witness: after the concrete call "call me" the session sits in the
contact table with `_waiting_for = "name"` and not in the cutoff table. -/
theorem c1_flow_invariant_witness :
    ({ waitingFor := some "name" } : ContactData).waitingFor.isSome = true ∧
    (runChat [⟨{}, 0, "call me"⟩]).sess.cutoff = none :=
  ⟨(c1_flow_invariant [⟨{}, 0, "call me"⟩]).2.1 { waitingFor := some "name" } (by decide),
   (c1_flow_invariant [⟨{}, 0, "call me"⟩]).1 (by decide)⟩
